import Mathlib

/-!
# vSphere provider: clone workflow and userdata injection

A shallow embedding of `pkg/cloudprovider/provider/vsphere` (`floppy.go`,
`userdata.go`, `userdata_coreos.go`, `vm.go`).  Go strings are Lean strings,
`error` results are `Except String`, and calls into the hypervisor, the file
system and external commands are fields of a `World` record whose answers the
functions consume; every such call is also recorded in an event trace.
-/

namespace Vsphere

/-! ## Devices and device-change operations (govmomi `types`) -/

/-- The dynamic type of a `types.BaseVirtualDevice` value. -/
inductive DeviceType where
  | VirtualFloppy
  | VirtualCdrom
  | VirtualIDEController
  | VirtualDisk
  | VirtualEthernetCard
  | VirtualOther
deriving DecidableEq

/-- The fields of the embedded `types.VirtualDevice` the workflow reads or writes.
`BackingFileName` is the `FileName` of a file backing, when the device has one. -/
structure VirtualDevice where
  Key : Int
  ControllerKey : Int
  BackingFileName : Option String
deriving DecidableEq

/-- A `types.BaseVirtualDevice`: a dynamic type together with the embedded device. -/
structure BaseVirtualDevice where
  dtype : DeviceType
  dev : VirtualDevice
deriving DecidableEq

/-- The `types.VirtualDeviceConfigSpecOperation` constants. -/
inductive ConfigSpecOperation where
  | Add
  | Remove
  | Edit
deriving DecidableEq

/-- A `types.VirtualDeviceConfigSpec`. -/
structure VirtualDeviceConfigSpec where
  Device : BaseVirtualDevice
  Operation : ConfigSpecOperation
deriving DecidableEq

/-- `object.VirtualDeviceList.SelectByType`: the devices of the list whose type is the
requested one, in the order of the list. -/
def SelectByType (devices : List BaseVirtualDevice) (t : DeviceType) : List BaseVirtualDevice :=
  devices.filter (fun d => d.dtype = t)

/-- Two's-complement wrap of an integer to `int32`. -/
def wrapInt32 (x : Int) : Int :=
  (x + 2147483648) % 4294967296 - 2147483648

/-- `object.VirtualDeviceList.NewKey`: one below the smallest of `-200` and the keys in use. -/
def NewKey (devices : List BaseVirtualDevice) : Int :=
  wrapInt32 ((devices.foldl (fun key d => if d.dev.Key < key then d.dev.Key else key) (-200)) - 1)

/-! ## floppy.go -/

/-- `removeFloppyDevices` of floppy.go: the loop appends one Remove per selected floppy. -/
def removeFloppyDevices (devices : List BaseVirtualDevice) : List VirtualDeviceConfigSpec :=
  (SelectByType devices DeviceType.VirtualFloppy).foldl
    (fun specs floppy => specs ++ [{ Device := floppy, Operation := ConfigSpecOperation.Remove }])
    []

/-! ## userdata.go: CD-ROM specifications -/

/-- The signature of `object.VirtualDeviceList.CreateCdrom`: from the device list and the
controller it answers the embedded device of a new `VirtualCdrom`, or an error. -/
abbrev CreateCdromFn := List BaseVirtualDevice → VirtualDevice → Except String VirtualDevice

/-- `getCDRomSpecs` of userdata.go. -/
def getCDRomSpecs (createCdrom : CreateCdromFn) (devices : List BaseVirtualDevice)
    (isoPath : String) : Except String (List VirtualDeviceConfigSpec) :=
  let specs : List VirtualDeviceConfigSpec := []
  let specs := (SelectByType devices DeviceType.VirtualCdrom).foldl
    (fun specs dev => specs ++ [{ Device := dev, Operation := ConfigSpecOperation.Remove }]) specs
  let specs := (SelectByType devices DeviceType.VirtualIDEController).foldl
    (fun specs dev => specs ++ [{ Device := dev, Operation := ConfigSpecOperation.Remove }]) specs
  let ideController : VirtualDevice :=
    { Key := NewKey devices, ControllerKey := 0, BackingFileName := none }
  let specs := specs ++
    [{ Device := { dtype := DeviceType.VirtualIDEController, dev := ideController },
       Operation := ConfigSpecOperation.Add }]
  match createCdrom devices ideController with
  | Except.error err => Except.error err
  | Except.ok cdrom =>
    let cdrom := { cdrom with BackingFileName := some isoPath }
    let specs := specs ++
      [{ Device := { dtype := DeviceType.VirtualCdrom, dev := cdrom },
         Operation := ConfigSpecOperation.Add }]
    Except.ok specs

/-! ## Go standard library: `path`, `encoding/base64`, `text/template`

Strings are compared and scanned character by character.  The characters these
functions test (`/`, `.`, the braces and the blank) are ASCII, so on a UTF-8 string the
scan over characters and Go's scan over bytes select the same positions. -/

/-- The inner loop of the `..` case of `path.Clean`,
`for out.w > dotdot && out.index(out.w) != '/' { out.w-- }`, from write index `w`;
`buf` holds the bytes written so far. -/
def cleanBacktrack (buf : List Char) (dotdot : Nat) : Nat → Nat
  | 0 => 0
  | w + 1 =>
    if w + 1 > dotdot ∧ buf.getD (w + 1) '/' ≠ '/' then cleanBacktrack buf dotdot w else w + 1

/-- The main loop `for r < n` of `path.Clean`.  `rest` is `path[r:]`, `out` the first `out.w`
bytes of the output buffer; every iteration consumes at least one byte of `rest`, and
`fuel` bounds the number of iterations. -/
def cleanLoop (rooted : Bool) : Nat → List Char → List Char → Nat → List Char
  | 0, _, out, _ => out
  | fuel + 1, rest, out, dotdot =>
    match rest with
    | [] => out
    | c :: t =>
      if c = '/' then
        -- empty path element
        cleanLoop rooted fuel t out dotdot
      else if c = '.' ∧ (t = [] ∨ t.head? = some '/') then
        -- . element
        cleanLoop rooted fuel t out dotdot
      else if c = '.' ∧ t.head? = some '.' ∧ (t.tail = [] ∨ t.tail.head? = some '/') then
        -- .. element: remove to last /
        if out.length > dotdot then
          cleanLoop rooted fuel t.tail
            (out.take (cleanBacktrack out dotdot (out.length - 1))) dotdot
        else if rooted = false then
          let out1 := (if out.length > 0 then out ++ ['/'] else out) ++ ['.', '.']
          cleanLoop rooted fuel t.tail out1 out1.length
        else
          cleanLoop rooted fuel t.tail out dotdot
      else
        -- real path element: add slash if needed, copy element
        let out1 :=
          if (rooted = true ∧ out.length ≠ 1) ∨ (rooted = false ∧ out.length ≠ 0)
          then out ++ ['/'] else out
        cleanLoop rooted fuel (rest.dropWhile (fun x => x ≠ '/'))
          (out1 ++ rest.takeWhile (fun x => x ≠ '/')) dotdot

/-- Go's `path.Clean`. -/
def pathClean (path : String) : String :=
  if path = "" then "."
  else
    let rooted : Bool := path.data.head? = some '/'
    let out :=
      if rooted then cleanLoop true path.data.length path.data.tail ['/'] 1
      else cleanLoop false path.data.length path.data [] 0
    if out.length = 0 then "." else String.mk out

/-- Go's `strings.Join`. -/
def stringsJoin : List String → String → String
  | [], _ => ""
  | [a], _ => a
  | a :: b :: rest, sep => a ++ sep ++ stringsJoin (b :: rest) sep

/-- Go's `path.Join`: the elements from the first non-empty one on, joined with slashes
and cleaned; the empty string when every element is empty. -/
def pathJoin : List String → String
  | [] => ""
  | e :: rest => if e ≠ "" then pathClean (stringsJoin (e :: rest) "/") else pathJoin rest

/-- The UTF-8 bytes of one character. -/
def utf8Bytes (c : Char) : List Nat :=
  let v := c.toNat
  if v < 128 then [v]
  else if v < 2048 then [192 + v / 64, 128 + v % 64]
  else if v < 65536 then [224 + v / 4096, 128 + v / 64 % 64, 128 + v % 64]
  else [240 + v / 262144, 128 + v / 4096 % 64, 128 + v / 64 % 64, 128 + v % 64]

/-- The conversion `[]byte(s)`. -/
def stringBytes (s : String) : List Nat :=
  s.data.foldr (fun c acc => utf8Bytes c ++ acc) []

/-- The alphabet `encodeStd` of `encoding/base64`. -/
def encodeStd : String :=
  "ABCDEFGHIJKLMNOPQRSTUVWXYZabcdefghijklmnopqrstuvwxyz0123456789+/"

/-- The character of the standard alphabet for a six-bit value. -/
def encodeStdAt (i : Nat) : Char :=
  encodeStd.data.getD (i % 64) 'A'

/-- The method `Encode` of `base64.StdEncoding` (padding character `=`): full groups of three
bytes give four characters, a final group of one or two bytes is padded. -/
def base64Encode : List Nat → List Char
  | [] => []
  | [a] =>
    let val := a * 65536
    [encodeStdAt (val / 262144), encodeStdAt (val / 4096), '=', '=']
  | [a, b] =>
    let val := a * 65536 + b * 256
    [encodeStdAt (val / 262144), encodeStdAt (val / 4096), encodeStdAt (val / 64), '=']
  | a :: b :: c :: rest =>
    let val := a * 65536 + b * 256 + c
    encodeStdAt (val / 262144) :: encodeStdAt (val / 4096) :: encodeStdAt (val / 64)
      :: encodeStdAt val :: base64Encode rest

/-- The call `base64.StdEncoding.EncodeToString([]byte(s))`. -/
def base64StdEncodeToString (s : String) : String :=
  String.mk (base64Encode (stringBytes s))

/-- A parsed `text/template`, for templates made of literal text and field actions
`{{ .Field }}`. -/
inductive TemplateNode where
  | text (s : List Char)
  | field (name : List Char)
deriving DecidableEq

/-- Splits the input at the first right delimiter `}}`. -/
def splitRightDelim : List Char → Option (List Char × List Char)
  | [] => none
  | c :: t =>
    if c = '}' ∧ t.head? = some '}' then some ([], t.tail)
    else (splitRightDelim t).map (fun p => (c :: p.1, p.2))

/-- Removes the blanks around the body of an action. -/
def trimBlanks (s : List Char) : List Char :=
  ((s.dropWhile (fun c => c = ' ')).reverse.dropWhile (fun c => c = ' ')).reverse

/-- The body of a field action: a dot followed by a non-empty identifier. -/
def parseField (body : List Char) : Option (List Char) :=
  match trimBlanks body with
  | c :: name =>
    if c = '.' ∧ name ≠ [] ∧ name.all (fun x => x.isAlphanum || x = '_') then some name else none
  | [] => none

/-- The lexer and parser of `text/template` on that fragment: `acc` is the literal text read
since the last action. -/
def parseNodes : Nat → List Char → List Char → Except String (List TemplateNode)
  | 0, _, _ => Except.error "template: input too long"
  | fuel + 1, rest, acc =>
    match rest with
    | [] => Except.ok (if acc = [] then [] else [TemplateNode.text acc])
    | c :: t =>
      if c = '{' ∧ t.head? = some '{' then
        match splitRightDelim t.tail with
        | none => Except.error "template: metadata: unclosed action"
        | some (body, rest1) =>
          match parseField body with
          | none => Except.error "template: metadata: unsupported action"
          | some name =>
            match parseNodes fuel rest1 [] with
            | Except.error err => Except.error err
            | Except.ok nodes =>
              Except.ok ((if acc = [] then [] else [TemplateNode.text acc])
                ++ TemplateNode.field name :: nodes)
      else parseNodes fuel t (acc ++ [c])

/-- The call `template.New("metadata").Parse(text)`. -/
def templateParse (text : String) : Except String (List TemplateNode) :=
  parseNodes (text.data.length + 1) text.data []

/-- The method `Execute` of a parsed template on a struct given by its fields: literal text is
copied, a field action prints the string value of the field (no escaping in
`text/template`); a field the struct lacks is an error. -/
def templateExecute : List TemplateNode → List (String × String) → Except String String
  | [], _ => Except.ok ""
  | TemplateNode.text s :: rest, data =>
    match templateExecute rest data with
    | Except.error err => Except.error err
    | Except.ok out => Except.ok (String.mk s ++ out)
  | TemplateNode.field name :: rest, data =>
    match data.lookup (String.mk name) with
    | none => Except.error ("template: metadata: can't evaluate field " ++ String.mk name)
    | some v =>
      match templateExecute rest data with
      | Except.error err => Except.error err
      | Except.ok out => Except.ok (v ++ out)

/-- Go's `<=` on strings, byte by byte; on UTF-8 strings the order of the bytes is the order
of the code points. -/
def stringLE : List Char → List Char → Bool
  | [], _ => true
  | _ :: _, [] => false
  | a :: as, b :: bs => if a.toNat < b.toNat then true else if b.toNat < a.toNat then false
      else stringLE as bs

/-! ## `k8s.io/apimachinery/pkg/util/sets`: the string set -/

/-- The method `Insert` of `sets.String`; the set is kept as the list of its members. -/
def setsInsert (s : List String) (item : String) : List String :=
  if item ∈ s then s else s ++ [item]

/-- The constructor `sets.NewString(items...)`. -/
def setsNewString (items : List String) : List String :=
  items.foldl setsInsert []

/-- The method `List` of `sets.String`: the members, sorted with `sort.Strings`. -/
def setsList (s : List String) : List String :=
  s.insertionSort (fun a b => stringLE a.data b.data = true)

/-! ## The hypervisor, the file system and the trace of calls -/

/-- The property of a vApp configuration: `types.VAppPropertyInfo`. -/
structure VAppPropertyInfo where
  Key : Int
  ClassId : String
  Id : String
  Value : String
deriving DecidableEq

/-- The `types.ArrayUpdateOperation` constants. -/
inductive ArrayUpdateOperation where
  | Add
  | Remove
  | Edit
deriving DecidableEq

/-- A `types.VAppPropertySpec`. -/
structure VAppPropertySpec where
  Operation : ArrayUpdateOperation
  Info : VAppPropertyInfo
deriving DecidableEq

/-- An `object.VirtualMachine` handle. -/
structure VirtualMachine where
  InventoryPath : String
  Reference : String
deriving DecidableEq

/-- An `object.Folder` handle. -/
structure Folder where
  InventoryPath : String
  Reference : String
deriving DecidableEq

/-- An `object.Task` handle. -/
structure Task where
  Reference : String
deriving DecidableEq

/-- The fields of `Config` that `createClonedVM` reads. -/
structure Config where
  TemplateVMName : String
  Folder : String
  CPUs : Int
  MemoryMB : Int
  DiskSizeGB : Option Int
  VMNetName : String
  Networks : List String

/-- The `types.VirtualMachineCloneSpec` built by `createClonedVM`, flattened. -/
structure VirtualMachineCloneSpec where
  Datastore : String
  DiskMoveType : String
  Folder : String
  NumCPUs : Int
  MemoryMB : Int
  DeviceChange : List VirtualDeviceConfigSpec
  VAppConfigProperty : List VAppPropertySpec
  DiskUuidEnabled : Bool
deriving DecidableEq

/-- The calls made to collaborators, in the order they are made. -/
inductive Event where
  | FinderVirtualMachine (name : String)
  | FinderFolder (name : String)
  | Device (vm : VirtualMachine)
  | Properties (vm : VirtualMachine)
  | TempDir (dir : String) (pfx : String)
  | WriteFile (path : String) (data : String)
  | LookPath (file : String)
  | CombinedOutput (command : String) (args : List String)
  | RemoveAll (path : String)
  | HandleError (msg : String)
  | Remove (path : String)
  | UploadFile (localPath : String) (remotePath : String)
  | FileManagerDelete (path : String)
  | GetDiskSpec (sizeGB : Int)
  | GetNetworkSpecs (networks : List String)
  | Clone (folder : Folder) (name : String) (spec : VirtualMachineCloneSpec)
  | TaskWait (task : Task)
deriving DecidableEq

/-- The answers of the collaborators: the session (datastore, finder), the template's
methods, the local file system and commands, and the builders `getDiskSpec` and
`GetNetworkSpecs`.  `finderVirtualMachineAfterClone` is the finder once the clone task has
completed. -/
structure World where
  datastoreName : String
  datastoreReference : String
  finderVirtualMachine : String → Except String VirtualMachine
  finderFolder : String → Except String Folder
  vmDevice : VirtualMachine → Except String (List BaseVirtualDevice)
  vmProperties : VirtualMachine → Except String (Option (List VAppPropertyInfo))
  createCdrom : CreateCdromFn
  tempDir : String → String → Except String String
  writeFile : String → String → Except String Unit
  lookPath : String → Bool
  combinedOutput : String → List String → String × Except String Unit
  removeAll : String → Except String Unit
  uploadFile : String → String → Except String Unit
  fileManagerDelete : String → Except String Unit
  getDiskSpec : List BaseVirtualDevice → Int → Except String VirtualDeviceConfigSpec
  GetNetworkSpecs : List BaseVirtualDevice → List String →
    Except String (List VirtualDeviceConfigSpec)
  clone : VirtualMachine → Folder → String → VirtualMachineCloneSpec → Except String Task
  taskWait : Task → Except String Unit
  finderVirtualMachineAfterClone : String → Except String VirtualMachine

/-- A run: the calls made and the value or error returned. -/
abbrev Run (α : Type) := List Event × Except String α

/-- Sequencing with `if err != nil { return ..., wrap(err) }`: the calls `evs` are made and
answer `answer`; on an error the function returns it wrapped, otherwise it goes on. -/
def call {α β : Type} (evs : List Event) (answer : Except String α) (wrap : String → String)
    (next : α → Run β) : Run β :=
  match answer with
  | Except.error err => (evs, Except.error (wrap err))
  | Except.ok a => (evs ++ (next a).1, (next a).2)

/-- The events of a run followed by events that are deferred to its return. -/
def deferred {α : Type} (r : Run α) (evs : List Event) : Run α :=
  (r.1 ++ evs, r.2)

/-- The method `Path` of govmomi's `object.Datastore`: the string of the `DatastorePath` made
of the datastore name and the relative path, `[name] path`. -/
def datastorePath (name : String) (path : String) : String :=
  if path = "" then "[" ++ name ++ "]" else stringsJoin ["[" ++ name ++ "]", path] " "

/-- The formatting of a `[]string` by the verb `%s`. -/
def formatStrings (args : List String) : String :=
  "[" ++ stringsJoin args " " ++ "]"

/-! ## vm.go: constants -/

/-- The constant `localTempDir` of vm.go. -/
def localTempDir : String := "/tmp"

/-- The constant `metaDataTemplate` of vm.go, a raw string over two lines; the second line
starts with a tab. -/
def metaDataTemplate : String :=
  "instance-id: \x7b\x7b .InstanceID\x7d\x7d\n\tlocal-hostname: \x7b\x7b .Hostname \x7d\x7d"

/-- The variable `diskMoveType` of vm.go. -/
def diskMoveType : String := "moveAllDiskBackingsAndConsolidate"

/-- The variable `diskUUIDEnabled` of vm.go. -/
def diskUUIDEnabled : Bool := true

/-- The constant `providerconfig.OperatingSystemCoreos`; an operating system is a string. -/
def OperatingSystemCoreos : String := "coreos"

/-! ## userdata.go -/

/-- `datastoreISOFilename` of userdata.go. -/
def datastoreISOFilename (machineName : String) : String :=
  pathJoin [machineName, "cloud-init.iso"]

/-- `generateLocalUserdataISO` of userdata.go. -/
def generateLocalUserdataISO (w : World) (userdata : String) (name : String) : Run String :=
  call [Event.TempDir localTempDir name] (w.tempDir localTempDir name)
    (fun err => "failed to create local temp directory for userdata at " ++ "" ++ ": " ++ err)
    fun userdataDir =>
  deferred
    (let userdataFilePath := userdataDir ++ "/user-data"
     let metadataFilePath := userdataDir ++ "/meta-data"
     let isoFilePath := localTempDir ++ "/" ++ name ++ ".iso"
     call [] (templateParse metaDataTemplate)
       (fun err => "failed to parse metadata template: " ++ err) fun metadataTmpl =>
     call [] (templateExecute metadataTmpl [("InstanceID", name), ("Hostname", name)])
       (fun err => "failed to render metadata: " ++ err) fun metadata =>
     call [Event.WriteFile userdataFilePath userdata] (w.writeFile userdataFilePath userdata)
       (fun err => "failed to locally write userdata file to " ++ userdataFilePath ++ ": " ++ err)
       fun _ =>
     call [Event.WriteFile metadataFilePath metadata] (w.writeFile metadataFilePath metadata)
       (fun err => "failed to locally write metadata file to " ++ userdataFilePath ++ ": " ++ err)
       fun _ =>
     let lookup : Run (String × List String) :=
       if w.lookPath "genisoimage" = true then
         ([Event.LookPath "genisoimage"],
          Except.ok ("genisoimage",
            ["-o", isoFilePath, "-volid", "cidata", "-joliet", "-rock", userdataDir]))
       else if w.lookPath "mkisofs" = true then
         ([Event.LookPath "genisoimage", Event.LookPath "mkisofs"],
          Except.ok ("mkisofs", ["-o", isoFilePath, "-V", "cidata", "-J", "-R", userdataDir]))
       else
         ([Event.LookPath "genisoimage", Event.LookPath "mkisofs"],
          Except.error
            "system is missing genisoimage or mkisofs, can't generate userdata iso without it")
     call lookup.1 lookup.2 (fun err => err) fun cmd =>
     call [Event.CombinedOutput cmd.1 cmd.2] (w.combinedOutput cmd.1 cmd.2).2
       (fun err => "error executing command `" ++ cmd.1 ++ " " ++ formatStrings cmd.2
          ++ "`: output: `" ++ (w.combinedOutput cmd.1 cmd.2).1 ++ "`, error: `" ++ err ++ "`")
       fun _ =>
     ([], Except.ok isoFilePath))
    (match w.removeAll userdataDir with
     | Except.ok _ => [Event.RemoveAll userdataDir]
     | Except.error err =>
       [Event.RemoveAll userdataDir,
        Event.HandleError
          ("error cleaning up local userdata tempdir " ++ userdataDir ++ ": " ++ err)])

/-- `generateAndUploadUserDataISO` of userdata.go. -/
def generateAndUploadUserDataISO (w : World) (userdata : String) (machineName : String) :
    Run String :=
  call (generateLocalUserdataISO w userdata machineName).1
    (generateLocalUserdataISO w userdata machineName).2
    (fun err => "failed to generate userdata ISO: " ++ err) fun localIsoFilePath =>
  deferred
    (let remoteIsoFilePath := datastoreISOFilename machineName
     call [Event.UploadFile localIsoFilePath remoteIsoFilePath]
       (w.uploadFile localIsoFilePath remoteIsoFilePath)
       (fun err => "failed to upload ISO: " ++ err) fun _ =>
     ([], Except.ok (datastorePath w.datastoreName remoteIsoFilePath)))
    [Event.Remove localIsoFilePath]

/-- `removeUserdataISO` of userdata.go. -/
def removeUserdataISO (w : World) (machineName : String) : Run Unit :=
  match w.fileManagerDelete (datastoreISOFilename machineName) with
  | Except.error err =>
    if err = "File [" ++ w.datastoreName ++ "] " ++ machineName ++ " was not found" then
      ([Event.FileManagerDelete (datastoreISOFilename machineName)], Except.ok ())
    else
      ([Event.FileManagerDelete (datastoreISOFilename machineName)],
       Except.error
         ("failed to delete userdate ISO of deleted machine " ++ machineName ++ ": " ++ err))
  | Except.ok _ => ([Event.FileManagerDelete (datastoreISOFilename machineName)], Except.ok ())

/-! ## userdata_coreos.go -/

/-- The constant `CoreOSUserDataKey`. -/
def CoreOSUserDataKey : String := "guestinfo.coreos.config.data"

/-- The constant `CoreOSUserDataEncodingKey`. -/
def CoreOSUserDataEncodingKey : String := "guestinfo.coreos.config.data.encoding"

/-- `getCoreOSOptions` of userdata_coreos.go.  `fetched` is the answer of `vm.Properties` for
the template: an error, or the vApp configuration (absent, or its property list). -/
def getCoreOSOptions (fetched : Except String (Option (List VAppPropertyInfo)))
    (userdata : String) : Except String (List VAppPropertySpec) :=
  let userdataBase64 := base64StdEncodeToString userdata
  match fetched with
  | Except.error err => Except.error ("failed to extract vapp properties for coreos: " ++ err)
  | Except.ok none => Except.error "no VM config found in template"
  | Except.ok (some properties) =>
    let propertySpecs : List VAppPropertySpec := properties.foldl
      (fun propertySpecs item =>
        if item.Id = CoreOSUserDataKey then
          propertySpecs ++ [{ Operation := ArrayUpdateOperation.Edit,
                              Info := { Key := item.Key, ClassId := "", Id := item.Id,
                                        Value := userdataBase64 } }]
        else if item.Id = CoreOSUserDataEncodingKey then
          propertySpecs ++ [{ Operation := ArrayUpdateOperation.Edit,
                              Info := { Key := item.Key, ClassId := "", Id := item.Id,
                                        Value := "base64" } }]
        else propertySpecs)
      []
    if propertySpecs.length ≠ 2 then
      Except.error ("could not find the required VM config options. Required options: \""
        ++ CoreOSUserDataKey ++ "\", \"" ++ CoreOSUserDataEncodingKey ++ "\"")
    else Except.ok propertySpecs

/-! ## vm.go -/

/-- `createClonedVM` of vm.go (the log lines are not part of the model). -/
def createClonedVM (w : World) (vmName : String) (config : Config) (operatingSystem : String)
    (userdata : String) : Run VirtualMachine :=
  call [Event.FinderVirtualMachine config.TemplateVMName]
    (w.finderVirtualMachine config.TemplateVMName)
    (fun err => "failed to get template vm: " ++ err) fun templateVM =>
  call [Event.FinderFolder config.Folder] (w.finderFolder config.Folder)
    (fun err => "failed to get VM folder: " ++ err) fun targetVMFolder =>
  call [Event.Device templateVM] (w.vmDevice templateVM)
    (fun err => "failed to list devices of tempalte VM: " ++ err) fun vmDevices =>
  let deviceSpecs : List VirtualDeviceConfigSpec := [] ++ removeFloppyDevices vmDevices
  -- Userdata handling
  let injection : Run (List VirtualDeviceConfigSpec × List VAppPropertySpec) :=
    if operatingSystem = OperatingSystemCoreos then
      call [Event.Properties templateVM] (getCoreOSOptions (w.vmProperties templateVM) userdata)
        (fun err => "failed to build vApp options for CoreOS. "
          ++ "Make sure you imported the correct OVA: " ++ err) fun coreOSVAppSpecs =>
      ([], Except.ok (deviceSpecs, [] ++ coreOSVAppSpecs))
    else
      call (generateAndUploadUserDataISO w userdata vmName).1
        (generateAndUploadUserDataISO w userdata vmName).2 (fun err => err)
        fun datastoreISOPath =>
      call [] (getCDRomSpecs w.createCdrom vmDevices datastoreISOPath)
        (fun err => "failed to get cdrom specifications for the userdata disk: " ++ err)
        fun cdRomSpecs =>
      ([], Except.ok (deviceSpecs ++ cdRomSpecs, []))
  call injection.1 injection.2 (fun err => err) fun injected =>
  let vAppPropertySpecs := injected.2
  let withDisk : Run (List VirtualDeviceConfigSpec) :=
    match config.DiskSizeGB with
    | some size =>
      call [Event.GetDiskSpec size] (w.getDiskSpec vmDevices size)
        (fun err => "failed to get disk specification: " ++ err) fun diskSpec =>
      ([], Except.ok (injected.1 ++ [diskSpec]))
    | none => ([], Except.ok injected.1)
  call withDisk.1 withDisk.2 (fun err => err) fun deviceSpecs1 =>
  let withNetworks : Run (List VirtualDeviceConfigSpec) :=
    if config.VMNetName ≠ "" ∨ config.Networks.length > 0 then
      let networks := setsInsert (setsNewString config.Networks) config.VMNetName
      call [Event.GetNetworkSpecs (setsList networks)]
        (w.GetNetworkSpecs vmDevices (setsList networks))
        (fun err => "failed to get network specifications: " ++ err) fun networkSpecs =>
      ([], Except.ok (deviceSpecs1 ++ networkSpecs))
    else ([], Except.ok deviceSpecs1)
  call withNetworks.1 withNetworks.2 (fun err => err) fun deviceSpecs2 =>
  let cloneSpec : VirtualMachineCloneSpec :=
    { Datastore := w.datastoreReference
      DiskMoveType := diskMoveType
      Folder := targetVMFolder.Reference
      NumCPUs := config.CPUs
      MemoryMB := config.MemoryMB
      DeviceChange := deviceSpecs2
      VAppConfigProperty := vAppPropertySpecs
      DiskUuidEnabled := diskUUIDEnabled }
  call [Event.Clone targetVMFolder vmName cloneSpec]
    (w.clone templateVM targetVMFolder vmName cloneSpec)
    (fun err => "failed to clone template vm: " ++ err) fun cloneTask =>
  call [Event.TaskWait cloneTask] (w.taskWait cloneTask)
    (fun err => "error when waiting for result of clone task: " ++ err) fun _ =>
  call [Event.FinderVirtualMachine vmName] (w.finderVirtualMachineAfterClone vmName)
    (fun err => "failed to get virtual machine object after cloning: " ++ err) fun vm =>
  ([], Except.ok vm)

/-! ## A concrete world -/

/-- A world in which every collaborator succeeds: the template has the given devices and
vApp properties, the datastore is `datastore1`, only `genisoimage` is installed, and the file
manager answers every delete with the not-found error of the path it was given. -/
def sampleWorld (devices : List BaseVirtualDevice)
    (properties : Option (List VAppPropertyInfo)) : World :=
  { datastoreName := "datastore1"
    datastoreReference := "datastore-11"
    finderVirtualMachine := fun name =>
      Except.ok { InventoryPath := "/dc/vm/" ++ name, Reference := "vm-21" }
    finderFolder := fun name =>
      Except.ok { InventoryPath := "/dc/vm/" ++ name, Reference := "group-v3" }
    vmDevice := fun _ => Except.ok devices
    vmProperties := fun _ => Except.ok properties
    createCdrom := fun _ c =>
      Except.ok { Key := -1, ControllerKey := c.Key, BackingFileName := none }
    tempDir := fun dir pfx => Except.ok (dir ++ "/" ++ pfx ++ "042")
    writeFile := fun _ _ => Except.ok ()
    lookPath := fun file => decide (file = "genisoimage")
    combinedOutput := fun _ _ => ("", Except.ok ())
    removeAll := fun _ => Except.ok ()
    uploadFile := fun _ _ => Except.ok ()
    fileManagerDelete := fun path =>
      Except.error ("File [datastore1] " ++ path ++ " was not found")
    getDiskSpec := fun _ _ => Except.error "no disk in template"
    GetNetworkSpecs := fun _ _ => Except.ok []
    clone := fun _ _ _ _ => Except.ok { Reference := "task-7" }
    taskWait := fun _ => Except.ok ()
    finderVirtualMachineAfterClone := fun name =>
      Except.ok { InventoryPath := "/dc/vm/" ++ name, Reference := "vm-22" } }

/-- A floppy drive of a template. -/
def sampleFloppy : BaseVirtualDevice :=
  { dtype := DeviceType.VirtualFloppy,
    dev := { Key := 8000, ControllerKey := 400, BackingFileName := none } }

/-- A CD-ROM drive of a template. -/
def sampleCdrom : BaseVirtualDevice :=
  { dtype := DeviceType.VirtualCdrom,
    dev := { Key := 3000, ControllerKey := 200, BackingFileName := none } }

/-- An IDE controller of a template. -/
def sampleIDE : BaseVirtualDevice :=
  { dtype := DeviceType.VirtualIDEController,
    dev := { Key := 200, ControllerKey := 0, BackingFileName := none } }

/-- A disk of a template. -/
def sampleDisk : BaseVirtualDevice :=
  { dtype := DeviceType.VirtualDisk,
    dev := { Key := 2000, ControllerKey := 1000, BackingFileName := some "[datastore1] t/t.vmdk" } }

/-- A configuration without disk-size override and without networks. -/
def sampleConfig : Config :=
  { TemplateVMName := "ubuntu-template", Folder := "machines", CPUs := 2, MemoryMB := 2048,
    DiskSizeGB := none, VMNetName := "", Networks := [] }

/-! ## The shape of the result of `getCDRomSpecs` -/

/-- The Remove operation on a device. -/
def removeOf (d : BaseVirtualDevice) : VirtualDeviceConfigSpec :=
  { Device := d, Operation := ConfigSpecOperation.Remove }

/-- The controller that `getCDRomSpecs` creates for a device list. -/
def newIDEController (devices : List BaseVirtualDevice) : VirtualDevice :=
  { Key := NewKey devices, ControllerKey := 0, BackingFileName := none }

/-- The Remove operations at the head of the result of `getCDRomSpecs`. -/
def cdromRemovals (devices : List BaseVirtualDevice) : List VirtualDeviceConfigSpec :=
  (devices.filter (fun d => d.dtype = DeviceType.VirtualCdrom)).map removeOf
    ++ (devices.filter (fun d => d.dtype = DeviceType.VirtualIDEController)).map removeOf

/-- The two Add operations at the end of the result of `getCDRomSpecs`, for the device
answered by `CreateCdrom`. -/
def cdromAdditions (devices : List BaseVirtualDevice) (cdrom : VirtualDevice)
    (isoPath : String) : List VirtualDeviceConfigSpec :=
  [{ Device := { dtype := DeviceType.VirtualIDEController, dev := newIDEController devices },
     Operation := ConfigSpecOperation.Add },
   { Device := { dtype := DeviceType.VirtualCdrom,
                 dev := { cdrom with BackingFileName := some isoPath } },
     Operation := ConfigSpecOperation.Add }]

/-! ## The operations of `getCoreOSOptions` -/

/-- The operation that the loop of `getCoreOSOptions` appends for a schema property, if any. -/
def coreOSEdit (userdata : String) (item : VAppPropertyInfo) : Option VAppPropertySpec :=
  if item.Id = CoreOSUserDataKey then
    some { Operation := ArrayUpdateOperation.Edit,
           Info := { Key := item.Key, ClassId := "", Id := item.Id,
                     Value := base64StdEncodeToString userdata } }
  else if item.Id = CoreOSUserDataEncodingKey then
    some { Operation := ArrayUpdateOperation.Edit,
           Info := { Key := item.Key, ClassId := "", Id := item.Id, Value := "base64" } }
  else none

/-- A schema in which the userdata identifier occurs twice and the encoding identifier does
not occur. -/
def duplicateUserdataSchema : List VAppPropertyInfo :=
  [{ Key := 4, ClassId := "", Id := "guestinfo.coreos.config.data", Value := "" },
   { Key := 9, ClassId := "backup", Id := "guestinfo.coreos.config.data", Value := "" }]

/-- A schema with both identifiers in which the userdata identifier occurs twice. -/
def surplusSchema : List VAppPropertyInfo :=
  [{ Key := 4, ClassId := "", Id := "guestinfo.coreos.config.data", Value := "" },
   { Key := 5, ClassId := "", Id := "guestinfo.coreos.config.data.encoding", Value := "" },
   { Key := 9, ClassId := "backup", Id := "guestinfo.coreos.config.data", Value := "" }]

/-- A schema with each identifier once, the encoding slot first, and an unrelated property. -/
def completeSchema : List VAppPropertyInfo :=
  [{ Key := 5, ClassId := "", Id := "guestinfo.coreos.config.data.encoding", Value := "" },
   { Key := 6, ClassId := "", Id := "guestinfo.hostname", Value := "template" },
   { Key := 4, ClassId := "", Id := "guestinfo.coreos.config.data", Value := "" }]

/-! ## The blocks of `createClonedVM` and the kinds of events -/

/-- The events of the generation and upload of a userdata ISO: the local file system, the
image-authoring command and the datastore upload. -/
def Event.isISOEvent : Event → Bool
  | Event.TempDir _ _ => true
  | Event.WriteFile _ _ => true
  | Event.LookPath _ => true
  | Event.CombinedOutput _ _ => true
  | Event.RemoveAll _ => true
  | Event.HandleError _ => true
  | Event.Remove _ => true
  | Event.UploadFile _ _ => true
  | _ => false

/-- The clone call. -/
def Event.isClone : Event → Bool
  | Event.Clone _ _ _ => true
  | _ => false

/-- The block "Userdata handling" of `createClonedVM` (the branch on the operating system),
from the device specifications built so far: it answers the device specifications and the
vApp property specifications after the block. -/
def userdataHandling (w : World) (vmName : String) (operatingSystem : String)
    (userdata : String) (templateVM : VirtualMachine) (vmDevices : List BaseVirtualDevice)
    (deviceSpecs : List VirtualDeviceConfigSpec) :
    Run (List VirtualDeviceConfigSpec × List VAppPropertySpec) :=
  if operatingSystem = OperatingSystemCoreos then
    call [Event.Properties templateVM] (getCoreOSOptions (w.vmProperties templateVM) userdata)
      (fun err => "failed to build vApp options for CoreOS. "
        ++ "Make sure you imported the correct OVA: " ++ err) fun coreOSVAppSpecs =>
    ([], Except.ok (deviceSpecs, [] ++ coreOSVAppSpecs))
  else
    call (generateAndUploadUserDataISO w userdata vmName).1
      (generateAndUploadUserDataISO w userdata vmName).2 (fun err => err)
      fun datastoreISOPath =>
    call [] (getCDRomSpecs w.createCdrom vmDevices datastoreISOPath)
      (fun err => "failed to get cdrom specifications for the userdata disk: " ++ err)
      fun cdRomSpecs =>
    ([], Except.ok (deviceSpecs ++ cdRomSpecs, []))

/-- The block `if config.DiskSizeGB != nil` of `createClonedVM`. -/
def diskSizeHandling (w : World) (config : Config) (vmDevices : List BaseVirtualDevice)
    (deviceSpecs : List VirtualDeviceConfigSpec) : Run (List VirtualDeviceConfigSpec) :=
  match config.DiskSizeGB with
  | some size =>
    call [Event.GetDiskSpec size] (w.getDiskSpec vmDevices size)
      (fun err => "failed to get disk specification: " ++ err) fun diskSpec =>
    ([], Except.ok (deviceSpecs ++ [diskSpec]))
  | none => ([], Except.ok deviceSpecs)

/-- The block `if config.VMNetName != "" || len(config.Networks) > 0` of `createClonedVM`. -/
def networkHandling (w : World) (config : Config) (vmDevices : List BaseVirtualDevice)
    (deviceSpecs : List VirtualDeviceConfigSpec) : Run (List VirtualDeviceConfigSpec) :=
  if config.VMNetName ≠ "" ∨ config.Networks.length > 0 then
    let networks := setsInsert (setsNewString config.Networks) config.VMNetName
    call [Event.GetNetworkSpecs (setsList networks)]
      (w.GetNetworkSpecs vmDevices (setsList networks))
      (fun err => "failed to get network specifications: " ++ err) fun networkSpecs =>
    ([], Except.ok (deviceSpecs ++ networkSpecs))
  else ([], Except.ok deviceSpecs)

/-- The clone specification that `createClonedVM` assembles. -/
def cloneSpecOf (w : World) (config : Config) (targetVMFolder : Folder)
    (deviceSpecs : List VirtualDeviceConfigSpec) (vAppPropertySpecs : List VAppPropertySpec) :
    VirtualMachineCloneSpec :=
  { Datastore := w.datastoreReference
    DiskMoveType := diskMoveType
    Folder := targetVMFolder.Reference
    NumCPUs := config.CPUs
    MemoryMB := config.MemoryMB
    DeviceChange := deviceSpecs
    VAppConfigProperty := vAppPropertySpecs
    DiskUuidEnabled := diskUUIDEnabled }

/-- The meta-data payload for an instance name. -/
def metadataOf (name : String) : String :=
  "instance-id: " ++ name ++ "\n\tlocal-hostname: " ++ name

/-- The device specifications appended after the userdata block of `createClonedVM`: the
output of `getDiskSpec` when a disk size is configured, then the output of `GetNetworkSpecs`
when a network is configured. -/
def IsBuilderOutput (w : World) (config : Config) (vmDevices : List BaseVirtualDevice)
    (extra : List VirtualDeviceConfigSpec) : Prop :=
  ∃ diskPart netPart, extra = diskPart ++ netPart
    ∧ ((config.DiskSizeGB = none ∧ diskPart = [])
        ∨ ∃ size diskSpec, config.DiskSizeGB = some size
            ∧ w.getDiskSpec vmDevices size = Except.ok diskSpec ∧ diskPart = [diskSpec])
    ∧ ((config.VMNetName = "" ∧ config.Networks = [] ∧ netPart = [])
        ∨ ((config.VMNetName ≠ "" ∨ config.Networks ≠ [])
            ∧ w.GetNetworkSpecs vmDevices
                (setsList (setsInsert (setsNewString config.Networks) config.VMNetName))
                = Except.ok netPart))

/-- A configuration with one extra network and no named network. -/
def extraNetworkConfig : Config :=
  { TemplateVMName := "ubuntu-template", Folder := "machines", CPUs := 2, MemoryMB := 2048,
    DiskSizeGB := none, VMNetName := "", Networks := ["net-a"] }

/-- The folder that `sampleWorld` answers for the folder name of `sampleConfig`. -/
def sampleFolder : Folder :=
  { InventoryPath := "/dc/vm/machines", Reference := "group-v3" }

/-- The device changes of the clone of `web-01` from a template with one floppy in
`sampleWorld`: the floppy removal, the new controller, the new CD-ROM backed by the datastore
path of the image. -/
def web01DeviceChange : List VirtualDeviceConfigSpec :=
  [removeOf sampleFloppy,
   { Device := { dtype := DeviceType.VirtualIDEController,
                 dev := { Key := -201, ControllerKey := 0, BackingFileName := none } },
     Operation := ConfigSpecOperation.Add },
   { Device := { dtype := DeviceType.VirtualCdrom,
                 dev := { Key := -1, ControllerKey := -201,
                          BackingFileName := some "[datastore1] web-01/cloud-init.iso" } },
     Operation := ConfigSpecOperation.Add }]

/-! ## Lemmas on the loops that append one element per iteration -/

theorem foldl_append_singleton {α β : Type} (f : α → β) (l : List α) (acc : List β) :
    l.foldl (fun specs x => specs ++ [f x]) acc = acc ++ l.map f := by
  induction l generalizing acc with
  | nil => simp
  | cons a t ih => simp [ih]

theorem removeFloppyDevices_eq_map (devices : List BaseVirtualDevice) :
    removeFloppyDevices devices =
      (devices.filter (fun d => d.dtype = DeviceType.VirtualFloppy)).map
        (fun d => { Device := d, Operation := ConfigSpecOperation.Remove }) := by
  unfold removeFloppyDevices SelectByType
  rw [foldl_append_singleton (fun d : BaseVirtualDevice =>
    ({ Device := d, Operation := ConfigSpecOperation.Remove } : VirtualDeviceConfigSpec))]
  simp

/-! ## floppy.go: `removeFloppyDevices` -/

/-- C9: `removeFloppyDevices` is total and answers, in the order of the input, one Remove per
floppy device carrying that device; its length is the number of floppies, every operation is
a Remove of a floppy of the input, and inputs without floppies (the empty list, or any list
from which the floppies are filtered out) give the empty result. -/
theorem removeFloppyDevices_one_remove_per_floppy (devices : List BaseVirtualDevice) :
    removeFloppyDevices devices =
        (devices.filter (fun d => d.dtype = DeviceType.VirtualFloppy)).map
          (fun d => { Device := d, Operation := ConfigSpecOperation.Remove })
      ∧ (removeFloppyDevices devices).length =
          devices.countP (fun d => d.dtype = DeviceType.VirtualFloppy)
      ∧ (removeFloppyDevices devices).all
          (fun s => s.Operation = ConfigSpecOperation.Remove
            ∧ s.Device.dtype = DeviceType.VirtualFloppy ∧ s.Device ∈ devices) = true
      ∧ removeFloppyDevices [] = []
      ∧ removeFloppyDevices
          (devices.filter (fun d => d.dtype ≠ DeviceType.VirtualFloppy)) = [] := by
  refine ⟨removeFloppyDevices_eq_map devices, ?_, ?_, ?_, ?_⟩
  · rw [removeFloppyDevices_eq_map, List.length_map, List.countP_eq_length_filter]
  · rw [removeFloppyDevices_eq_map]
    simp only [List.all_eq_true, List.mem_map, List.mem_filter, decide_eq_true_eq]
    rintro s ⟨d, ⟨hd, ht⟩, rfl⟩
    exact ⟨rfl, ht, hd⟩
  · rfl
  · rw [removeFloppyDevices_eq_map, List.filter_filter]
    simp

/-! ## userdata.go: `getCDRomSpecs` -/

theorem foldl_removeOf (l : List BaseVirtualDevice) (acc : List VirtualDeviceConfigSpec) :
    l.foldl (fun specs dev =>
        specs ++ [{ Device := dev, Operation := ConfigSpecOperation.Remove }]) acc
      = acc ++ l.map removeOf :=
  foldl_append_singleton removeOf l acc

theorem getCDRomSpecs_eq (createCdrom : CreateCdromFn) (devices : List BaseVirtualDevice)
    (isoPath : String) :
    getCDRomSpecs createCdrom devices isoPath =
      match createCdrom devices (newIDEController devices) with
      | Except.error err => Except.error err
      | Except.ok cdrom =>
        Except.ok (cdromRemovals devices ++ cdromAdditions devices cdrom isoPath) := by
  unfold getCDRomSpecs SelectByType
  simp only []
  rw [foldl_removeOf, foldl_removeOf]
  cases h : createCdrom devices (newIDEController devices) with
  | error err => simp [newIDEController] at h; simp [h]
  | ok cdrom =>
    simp [newIDEController] at h
    simp [h, cdromRemovals, cdromAdditions, newIDEController, removeOf]

theorem getCDRomSpecs_ok_iff (createCdrom : CreateCdromFn) (devices : List BaseVirtualDevice)
    (isoPath : String) (specs : List VirtualDeviceConfigSpec) :
    getCDRomSpecs createCdrom devices isoPath = Except.ok specs ↔
      ∃ cdrom, createCdrom devices (newIDEController devices) = Except.ok cdrom
        ∧ specs = cdromRemovals devices ++ cdromAdditions devices cdrom isoPath := by
  rw [getCDRomSpecs_eq]
  cases h : createCdrom devices (newIDEController devices) with
  | error err => simp
  | ok cdrom =>
    simp only [Except.ok.injEq]
    constructor
    · intro hs
      exact ⟨cdrom, rfl, hs.symm⟩
    · rintro ⟨c, hc, hs⟩
      cases hc
      exact hs.symm

theorem cdromRemovals_all_remove (devices : List BaseVirtualDevice) :
    ∀ s ∈ cdromRemovals devices, s.Operation = ConfigSpecOperation.Remove
      ∧ (s.Device.dtype = DeviceType.VirtualCdrom
          ∨ s.Device.dtype = DeviceType.VirtualIDEController)
      ∧ s.Device ∈ devices := by
  intro s hs
  simp only [cdromRemovals, List.mem_append, List.mem_map, List.mem_filter,
    decide_eq_true_eq] at hs
  rcases hs with ⟨d, ⟨hd, ht⟩, rfl⟩ | ⟨d, ⟨hd, ht⟩, rfl⟩
  · exact ⟨rfl, Or.inl ht, hd⟩
  · exact ⟨rfl, Or.inr ht, hd⟩

/-- C6: when `getCDRomSpecs` succeeds, its result is one Remove per CD-ROM device of the
input (in order), then one Remove per IDE controller of the input (in order), then exactly
two Adds: the new IDE controller and, last, the new CD-ROM backed by the ISO path.  The
result has two more elements than there are CD-ROMs and IDE controllers, and every Remove
stands at an index below the indices of both Adds. -/
theorem getCDRomSpecs_removals_before_additions (createCdrom : CreateCdromFn)
    (devices : List BaseVirtualDevice) (isoPath : String)
    (specs : List VirtualDeviceConfigSpec)
    (h : getCDRomSpecs createCdrom devices isoPath = Except.ok specs) :
    ∃ cdrom, createCdrom devices (newIDEController devices) = Except.ok cdrom
      ∧ specs =
          (devices.filter (fun d => d.dtype = DeviceType.VirtualCdrom)).map removeOf
          ++ (devices.filter (fun d => d.dtype = DeviceType.VirtualIDEController)).map removeOf
          ++ [{ Device := { dtype := DeviceType.VirtualIDEController,
                            dev := newIDEController devices },
                Operation := ConfigSpecOperation.Add },
              { Device := { dtype := DeviceType.VirtualCdrom,
                            dev := { cdrom with BackingFileName := some isoPath } },
                Operation := ConfigSpecOperation.Add }]
      ∧ specs.length = devices.countP (fun d => d.dtype = DeviceType.VirtualCdrom)
          + devices.countP (fun d => d.dtype = DeviceType.VirtualIDEController) + 2
      ∧ (∀ i s, specs[i]? = some s → s.Operation = ConfigSpecOperation.Remove →
          i < specs.length - 2)
      ∧ (∀ i s, specs[i]? = some s → i < specs.length - 2 →
          s.Operation = ConfigSpecOperation.Remove
          ∧ (s.Device.dtype = DeviceType.VirtualCdrom
              ∨ s.Device.dtype = DeviceType.VirtualIDEController)
          ∧ s.Device ∈ devices) := by
  obtain ⟨cdrom, hc, hs⟩ := (getCDRomSpecs_ok_iff createCdrom devices isoPath specs).1 h
  have hlen : specs.length = (cdromRemovals devices).length + 2 := by
    rw [hs]; simp [cdromAdditions]
  have hrem : (cdromRemovals devices).length =
      devices.countP (fun d => d.dtype = DeviceType.VirtualCdrom)
        + devices.countP (fun d => d.dtype = DeviceType.VirtualIDEController) := by
    simp [cdromRemovals, List.countP_eq_length_filter]
  refine ⟨cdrom, hc, ?_, ?_, ?_, ?_⟩
  · rw [hs]; rfl
  · omega
  · intro i s hi hop
    have hlt : i < (cdromRemovals devices).length := by
      by_contra hge
      push_neg at hge
      rw [hs, List.getElem?_append_right hge] at hi
      have h2 : i - (cdromRemovals devices).length = 0
          ∨ i - (cdromRemovals devices).length = 1
          ∨ 2 ≤ i - (cdromRemovals devices).length := by omega
      rcases h2 with h0 | h1 | h2
      · rw [h0] at hi
        simp [cdromAdditions] at hi
        rw [← hi] at hop
        simp at hop
      · rw [h1] at hi
        simp [cdromAdditions] at hi
        rw [← hi] at hop
        simp at hop
      · have : (cdromAdditions devices cdrom isoPath)[i - (cdromRemovals devices).length]?
            = none := by
          apply List.getElem?_eq_none
          simp [cdromAdditions]
          exact h2
        rw [this] at hi
        simp at hi
    omega
  · intro i s hi hlt
    have hlt2 : i < (cdromRemovals devices).length := by omega
    rw [hs, List.getElem?_append_left hlt2] at hi
    have hmem : s ∈ cdromRemovals devices := List.getElem?_mem hi
    exact cdromRemovals_all_remove devices s hmem

/-- C6 at a template with a disk, a CD-ROM, an IDE controller and a floppy. -/
theorem getCDRomSpecs_removals_before_additions_witness :
    getCDRomSpecs (sampleWorld [] none).createCdrom
        [sampleDisk, sampleIDE, sampleCdrom, sampleFloppy] "[datastore1] web-01/cloud-init.iso"
      = Except.ok
          [removeOf sampleCdrom, removeOf sampleIDE,
           { Device := { dtype := DeviceType.VirtualIDEController,
                         dev := { Key := -201, ControllerKey := 0, BackingFileName := none } },
             Operation := ConfigSpecOperation.Add },
           { Device := { dtype := DeviceType.VirtualCdrom,
                         dev := { Key := -1, ControllerKey := -201,
                                  BackingFileName := some "[datastore1] web-01/cloud-init.iso" } },
             Operation := ConfigSpecOperation.Add }]
    ∧ ∃ cdrom, (sampleWorld [] none).createCdrom
          [sampleDisk, sampleIDE, sampleCdrom, sampleFloppy]
          (newIDEController [sampleDisk, sampleIDE, sampleCdrom, sampleFloppy]) = Except.ok cdrom :=
  ⟨by rfl,
   (getCDRomSpecs_removals_before_additions (sampleWorld [] none).createCdrom
      [sampleDisk, sampleIDE, sampleCdrom, sampleFloppy] "[datastore1] web-01/cloud-init.iso"
      _ (by rfl)).imp (fun _ hc => hc.1)⟩

/-! ## userdata_coreos.go: `getCoreOSOptions` -/

theorem coreOS_keys_ne : CoreOSUserDataKey ≠ CoreOSUserDataEncodingKey := by decide

theorem foldl_coreOSEdit (userdata : String) (properties : List VAppPropertyInfo)
    (acc : List VAppPropertySpec) :
    properties.foldl
      (fun propertySpecs item =>
        if item.Id = CoreOSUserDataKey then
          propertySpecs ++ [{ Operation := ArrayUpdateOperation.Edit,
                              Info := { Key := item.Key, ClassId := "", Id := item.Id,
                                        Value := base64StdEncodeToString userdata } }]
        else if item.Id = CoreOSUserDataEncodingKey then
          propertySpecs ++ [{ Operation := ArrayUpdateOperation.Edit,
                              Info := { Key := item.Key, ClassId := "", Id := item.Id,
                                        Value := "base64" } }]
        else propertySpecs)
      acc
    = acc ++ properties.filterMap (coreOSEdit userdata) := by
  induction properties generalizing acc with
  | nil => simp
  | cons a t ih =>
    rw [List.foldl_cons, ih]
    by_cases h1 : a.Id = CoreOSUserDataKey
    · simp [coreOSEdit, h1, List.filterMap_cons]
    · by_cases h2 : a.Id = CoreOSUserDataEncodingKey
      · simp [coreOSEdit, h2, List.filterMap_cons, coreOS_keys_ne.symm]
      · simp [coreOSEdit, h1, h2, List.filterMap_cons]

theorem getCoreOSOptions_eq (properties : List VAppPropertyInfo) (userdata : String) :
    getCoreOSOptions (Except.ok (some properties)) userdata =
      if (properties.filterMap (coreOSEdit userdata)).length ≠ 2 then
        Except.error ("could not find the required VM config options. Required options: \""
          ++ CoreOSUserDataKey ++ "\", \"" ++ CoreOSUserDataEncodingKey ++ "\"")
      else Except.ok (properties.filterMap (coreOSEdit userdata)) := by
  unfold getCoreOSOptions
  simp only []
  rw [foldl_coreOSEdit]
  simp

theorem length_filterMap_coreOSEdit (userdata : String) (properties : List VAppPropertyInfo) :
    (properties.filterMap (coreOSEdit userdata)).length =
      properties.countP (fun p => p.Id = CoreOSUserDataKey)
        + properties.countP (fun p => p.Id = CoreOSUserDataEncodingKey) := by
  induction properties with
  | nil => simp
  | cons a t ih =>
    by_cases h1 : a.Id = CoreOSUserDataKey
    · have h2 : a.Id ≠ CoreOSUserDataEncodingKey := by rw [h1]; exact coreOS_keys_ne
      simp [coreOSEdit, h1, h2, List.filterMap_cons, List.countP_cons, ih, coreOS_keys_ne]
      omega
    · by_cases h2 : a.Id = CoreOSUserDataEncodingKey
      · simp [coreOSEdit, h2, List.filterMap_cons, List.countP_cons, ih, coreOS_keys_ne.symm]
        omega
      · simp [coreOSEdit, h1, h2, List.filterMap_cons, List.countP_cons, ih]

theorem countP_filterMap_coreOSEdit (userdata : String) (key : String)
    (properties : List VAppPropertyInfo)
    (hkey : key = CoreOSUserDataKey ∨ key = CoreOSUserDataEncodingKey) :
    (properties.filterMap (coreOSEdit userdata)).countP (fun op => op.Info.Id = key) =
      properties.countP (fun p => p.Id = key) := by
  induction properties with
  | nil => simp
  | cons a t ih =>
    by_cases h1 : a.Id = CoreOSUserDataKey
    · simp [coreOSEdit, h1, List.filterMap_cons, List.countP_cons, ih]
    · by_cases h2 : a.Id = CoreOSUserDataEncodingKey
      · simp [coreOSEdit, h2, List.filterMap_cons, List.countP_cons, ih, coreOS_keys_ne.symm]
      · have h3 : a.Id ≠ key := by
          rcases hkey with hk | hk
          · rw [hk]; exact h1
          · rw [hk]; exact h2
        simp [coreOSEdit, h1, h2, h3, List.filterMap_cons, List.countP_cons, ih]

/-- C1 (the code at the failing input): on a schema whose two properties both carry the
userdata identifier and in which the encoding identifier does not occur, `getCoreOSOptions`
answers no error but two Edit operations, both for the userdata identifier. -/
theorem getCoreOSOptions_proceeds_without_encoding_slot :
    (∀ p ∈ duplicateUserdataSchema, p.Id ≠ CoreOSUserDataEncodingKey)
    ∧ getCoreOSOptions (Except.ok (some duplicateUserdataSchema)) "#cloud-config" =
      Except.ok
        [{ Operation := ArrayUpdateOperation.Edit,
           Info := { Key := 4, ClassId := "", Id := "guestinfo.coreos.config.data",
                     Value := "I2Nsb3VkLWNvbmZpZw==" } },
         { Operation := ArrayUpdateOperation.Edit,
           Info := { Key := 9, ClassId := "", Id := "guestinfo.coreos.config.data",
                     Value := "I2Nsb3VkLWNvbmZpZw==" } }] := by
  constructor
  · decide
  · rfl

/-- C2 as stated fails: a schema that contains a property of each identifier, the
userdata identifier twice, is answered with an error. -/
theorem getCoreOSOptions_rejects_surplus_slot :
    (∃ p ∈ surplusSchema, p.Id = CoreOSUserDataKey)
    ∧ (∃ p ∈ surplusSchema, p.Id = CoreOSUserDataEncodingKey)
    ∧ getCoreOSOptions (Except.ok (some surplusSchema)) "#cloud-config" =
        Except.error ("could not find the required VM config options. Required options: "
          ++ "\"guestinfo.coreos.config.data\", \"guestinfo.coreos.config.data.encoding\"") := by
  refine ⟨?_, ?_, ?_⟩
  · decide
  · decide
  · rfl

/-- C2, amended: on a schema with exactly one property of Id `guestinfo.coreos.config.data`
and exactly one of Id `guestinfo.coreos.config.data.encoding`, `getCoreOSOptions` succeeds
with exactly 2 operations; each is an Edit that carries the Key of a schema property with the
same Id, with value the standard base64 of the userdata for the userdata identifier and
`base64` for the encoding identifier; each identifier has exactly one operation. -/
theorem getCoreOSOptions_both_slots_once (userdata : String)
    (properties : List VAppPropertyInfo)
    (hdata : properties.countP (fun p => p.Id = CoreOSUserDataKey) = 1)
    (henc : properties.countP (fun p => p.Id = CoreOSUserDataEncodingKey) = 1) :
    ∃ ops, getCoreOSOptions (Except.ok (some properties)) userdata = Except.ok ops
      ∧ ops.length = 2
      ∧ (∀ op ∈ ops, op.Operation = ArrayUpdateOperation.Edit
          ∧ (∃ item ∈ properties, item.Id = op.Info.Id ∧ item.Key = op.Info.Key)
          ∧ ((op.Info.Id = CoreOSUserDataKey
                ∧ op.Info.Value = base64StdEncodeToString userdata)
              ∨ (op.Info.Id = CoreOSUserDataEncodingKey ∧ op.Info.Value = "base64")))
      ∧ ops.countP (fun op => op.Info.Id = CoreOSUserDataKey) = 1
      ∧ ops.countP (fun op => op.Info.Id = CoreOSUserDataEncodingKey) = 1 := by
  have hlen : (properties.filterMap (coreOSEdit userdata)).length = 2 := by
    rw [length_filterMap_coreOSEdit, hdata, henc]
  refine ⟨properties.filterMap (coreOSEdit userdata), ?_, hlen, ?_, ?_, ?_⟩
  · rw [getCoreOSOptions_eq, hlen]
    simp
  · intro op hop
    obtain ⟨item, hitem, hedit⟩ := List.mem_filterMap.1 hop
    unfold coreOSEdit at hedit
    by_cases h1 : item.Id = CoreOSUserDataKey
    · rw [if_pos h1] at hedit
      cases hedit
      exact ⟨rfl, ⟨item, hitem, rfl, rfl⟩, Or.inl ⟨h1, rfl⟩⟩
    · rw [if_neg h1] at hedit
      by_cases h2 : item.Id = CoreOSUserDataEncodingKey
      · rw [if_pos h2] at hedit
        cases hedit
        exact ⟨rfl, ⟨item, hitem, rfl, rfl⟩, Or.inr ⟨h2, rfl⟩⟩
      · rw [if_neg h2] at hedit
        cases hedit
  · rw [countP_filterMap_coreOSEdit userdata _ properties (Or.inl rfl), hdata]
  · rw [countP_filterMap_coreOSEdit userdata _ properties (Or.inr rfl), henc]

/-- C2, amended, at a schema with the encoding slot first and an unrelated property. -/
theorem getCoreOSOptions_both_slots_once_witness :
    getCoreOSOptions (Except.ok (some completeSchema)) "#cloud-config" =
      Except.ok
        [{ Operation := ArrayUpdateOperation.Edit,
           Info := { Key := 5, ClassId := "", Id := "guestinfo.coreos.config.data.encoding",
                     Value := "base64" } },
         { Operation := ArrayUpdateOperation.Edit,
           Info := { Key := 4, ClassId := "", Id := "guestinfo.coreos.config.data",
                     Value := "I2Nsb3VkLWNvbmZpZw==" } }]
    ∧ ∃ ops, getCoreOSOptions (Except.ok (some completeSchema)) "#cloud-config" = Except.ok ops
        ∧ ops.length = 2 :=
  ⟨by rfl,
   (getCoreOSOptions_both_slots_once "#cloud-config" completeSchema (by decide)
      (by decide)).imp (fun _ h => ⟨h.1, h.2.1⟩)⟩

/-! ## Go's `path.Clean` on a plain name -/

theorem cleanLoop_slash (fuel : Nat) (t out : List Char) (dotdot : Nat) :
    cleanLoop false (fuel + 1) ('/' :: t) out dotdot = cleanLoop false fuel t out dotdot := by
  simp [cleanLoop]

theorem cleanLoop_nil (fuel : Nat) (out : List Char) (dotdot : Nat) :
    cleanLoop false fuel [] out dotdot = out := by
  cases fuel <;> simp [cleanLoop]

/-- One iteration on a real path element that is followed by a slash. -/
theorem cleanLoop_element (fuel : Nat) (c : Char) (cs t out : List Char) (dotdot : Nat)
    (hc : c ≠ '/') (hcs : ∀ x ∈ cs, x ≠ '/')
    (hdot : ¬ (c = '.' ∧ cs = [])) (hdotdot : ¬ (c = '.' ∧ cs = ['.'])) :
    cleanLoop false (fuel + 1) (c :: cs ++ '/' :: t) out dotdot =
      cleanLoop false fuel ('/' :: t)
        ((if out.length ≠ 0 then out ++ ['/'] else out) ++ c :: cs) dotdot := by
  have h2 : ¬ (c = '.' ∧ (cs ++ '/' :: t = [] ∨ (cs ++ '/' :: t).head? = some '/')) := by
    rintro ⟨h, h3 | h3⟩
    · simp at h3
    · cases cs with
      | nil => exact hdot ⟨h, rfl⟩
      | cons d ds =>
        simp at h3
        exact hcs d (by simp) h3
  have h3 : ¬ (c = '.' ∧ (cs ++ '/' :: t).head? = some '.'
      ∧ ((cs ++ '/' :: t).tail = [] ∨ (cs ++ '/' :: t).tail.head? = some '/')) := by
    rintro ⟨h, h4, h5⟩
    cases cs with
    | nil => simp at h4
    | cons d ds =>
      simp at h4
      cases ds with
      | nil => exact hdotdot ⟨h, by rw [h4]⟩
      | cons e es =>
        simp at h5
        exact hcs e (by simp) h5
  have hall : ∀ a ∈ c :: cs, (fun x => decide (x ≠ '/')) a = true := by
    intro a ha
    simp only [List.mem_cons] at ha
    rcases ha with rfl | ha
    · simpa using hc
    · simpa using hcs a ha
  conv_lhs => unfold cleanLoop
  simp only [List.cons_append, if_neg hc, if_neg h2, if_neg h3]
  have e1 : List.dropWhile (fun x => decide (x ≠ '/')) (c :: (cs ++ '/' :: t)) = '/' :: t := by
    rw [← List.cons_append, List.dropWhile_append_of_pos hall]
    simp [List.dropWhile_cons]
  have e2 : List.takeWhile (fun x => decide (x ≠ '/')) (c :: (cs ++ '/' :: t)) = c :: cs := by
    rw [← List.cons_append, List.takeWhile_append_of_pos hall]
    simp [List.takeWhile_cons]
  rw [e1, e2]
  simp

theorem pathClean_plain_name (n : String) (hne : n ≠ "") (hslash : ∀ x ∈ n.data, x ≠ '/')
    (hdot : n ≠ ".") :
    pathClean (n ++ "/cloud-init.iso") = n ++ "/cloud-init.iso" := by
  by_cases hdd : n = ".."
  · subst hdd
    decide
  · obtain ⟨data⟩ := n
    cases data with
    | nil => exact absurd rfl hne
    | cons c cs =>
      have hc : c ≠ '/' := hslash c (by simp)
      have hcs : ∀ x ∈ cs, x ≠ '/' := fun x hx => hslash x (by simp [hx])
      have h1 : ¬ (c = '.' ∧ cs = []) := by
        rintro ⟨rfl, rfl⟩
        exact hdot rfl
      have h2 : ¬ (c = '.' ∧ cs = ['.']) := by
        rintro ⟨rfl, rfl⟩
        exact hdd rfl
      show pathClean (String.mk (c :: cs) ++ "/cloud-init.iso") = _
      unfold pathClean
      have hne2 : String.mk (c :: cs) ++ "/cloud-init.iso" ≠ "" := by
        intro h
        have := congrArg String.data h
        simp at this
      rw [if_neg hne2]
      have hd : (String.mk (c :: cs) ++ "/cloud-init.iso").data
          = c :: cs ++ '/' :: "cloud-init.iso".data := rfl
      simp only [hd]
      have hlen : (c :: cs ++ '/' :: "cloud-init.iso".data).length = (cs.length + 14) + 1 + 1 := by
        simp
      have hroot : decide ((c :: cs ++ '/' :: "cloud-init.iso".data).head? = some '/') = false := by
        simpa using hc
      rw [hroot, hlen, cleanLoop_element _ c cs _ _ _ hc hcs h1 h2, cleanLoop_slash]
      have hlast : ∀ out : List Char, out ≠ [] →
          cleanLoop false (cs.length + 14) "cloud-init.iso".data out 0
            = out ++ '/' :: "cloud-init.iso".data := by
        intro out hout
        have : out.length ≠ 0 := by simpa using hout
        simp [cleanLoop, this]
      rw [hlast _ (by simp)]
      simp [String.ext_iff]

/-- The fuel given by `pathClean` is enough: once the fuel is at least the length of the
unread input, more fuel does not change the result. -/
theorem cleanLoop_fuel_succ (rooted : Bool) (fuel : Nat) :
    ∀ (rest out : List Char) (dotdot : Nat), rest.length ≤ fuel →
      cleanLoop rooted (fuel + 1) rest out dotdot = cleanLoop rooted fuel rest out dotdot := by
  induction fuel with
  | zero =>
    intro rest out dotdot h
    have : rest = [] := List.length_eq_zero.1 (Nat.le_zero.1 h)
    subst this
    simp [cleanLoop]
  | succ k ih =>
    intro rest out dotdot h
    cases rest with
    | nil => simp [cleanLoop]
    | cons c t =>
      have ht : t.length ≤ k := by simpa using h
      have htt : t.tail.length ≤ k := by
        have := List.length_tail t
        omega
      have hdrop : ∀ p : Char → Bool, (List.dropWhile p t).length ≤ k :=
        fun p => le_trans (List.Sublist.length_le (List.dropWhile_sublist p)) ht
      rw [cleanLoop.eq_def rooted (k + 1 + 1), cleanLoop.eq_def rooted (k + 1)]
      simp only []
      by_cases h1 : c = '/'
      · simp only [if_pos h1]
        exact ih _ _ _ ht
      · simp only [if_neg h1]
        split
        · exact ih _ _ _ ht
        · split
          · split
            · exact ih _ _ _ htt
            · split
              · exact ih _ _ _ htt
              · exact ih _ _ _ htt
          · have hd : List.dropWhile (fun x => decide (x ≠ '/')) (c :: t)
                = List.dropWhile (fun x => decide (x ≠ '/')) t := by
              simp [List.dropWhile_cons, h1]
            rw [hd]
            exact ih _ _ _ (hdrop _)


/-! ## Runs -/

theorem call_ok {α β : Type} (evs : List Event) (a : α) (wrap : String → String)
    (next : α → Run β) :
    call evs (Except.ok a) wrap next = (evs ++ (next a).1, (next a).2) := rfl

theorem call_error {α β : Type} (evs : List Event) (err : String) (wrap : String → String)
    (next : α → Run β) :
    call evs (Except.error err : Except String α) wrap next = (evs, Except.error (wrap err)) :=
  rfl

theorem mem_call {α β : Type} (evs : List Event) (answer : Except String α)
    (wrap : String → String) (next : α → Run β) (ev : Event) :
    ev ∈ (call evs answer wrap next).1 ↔
      ev ∈ evs ∨ ∃ a, answer = Except.ok a ∧ ev ∈ (next a).1 := by
  cases answer with
  | error err => simp [call_error]
  | ok a => simp [call_ok]

theorem call_result_ok {α β : Type} (evs : List Event) (answer : Except String α)
    (wrap : String → String) (next : α → Run β) (b : β) :
    (call evs answer wrap next).2 = Except.ok b ↔
      ∃ a, answer = Except.ok a ∧ (next a).2 = Except.ok b := by
  cases answer with
  | error err => simp [call_error]
  | ok a => simp [call_ok]

theorem all_call {α β : Type} (P : Event → Prop) (evs : List Event) (answer : Except String α)
    (wrap : String → String) (next : α → Run β) (hevs : ∀ ev ∈ evs, P ev)
    (hnext : ∀ a, answer = Except.ok a → ∀ ev ∈ (next a).1, P ev) :
    ∀ ev ∈ (call evs answer wrap next).1, P ev := by
  intro ev hev
  rcases (mem_call evs answer wrap next ev).1 hev with h | ⟨a, ha, h⟩
  · exact hevs ev h
  · exact hnext a ha ev h

/-! ## userdata.go: the meta-data payload -/

theorem templateParse_metaDataTemplate :
    templateParse metaDataTemplate =
      Except.ok [TemplateNode.text "instance-id: ".data, TemplateNode.field "InstanceID".data,
        TemplateNode.text "\n\tlocal-hostname: ".data, TemplateNode.field "Hostname".data] := by
  rfl

theorem templateExecute_metaDataTemplate (name : String) :
    templateExecute
      [TemplateNode.text "instance-id: ".data, TemplateNode.field "InstanceID".data,
        TemplateNode.text "\n\tlocal-hostname: ".data, TemplateNode.field "Hostname".data]
      [("InstanceID", name), ("Hostname", name)] = Except.ok (metadataOf name) := by
  have h1 : List.lookup (String.mk "InstanceID".data) [("InstanceID", name), ("Hostname", name)]
      = some name := by
    simp [List.lookup]
  have h2 : List.lookup (String.mk "Hostname".data) [("InstanceID", name), ("Hostname", name)]
      = some name := by
    rw [List.lookup]
    have : (String.mk "Hostname".data == "InstanceID") = false := by decide
    simp [this, List.lookup]
  simp only [templateExecute, h1, h2, metadataOf]
  simp [String.ext_iff]

theorem append_left_cancel (a b c : String) (h : a ++ b = a ++ c) : b = c := by
  have := congrArg String.data h
  simp only [String.data_append, List.append_cancel_left_eq] at this
  exact String.ext this


/-- The events after the two writes of `generateLocalUserdataISO`: the lookups of the
image-authoring commands and the command itself. -/
theorem lookup_events (w : World) (isoFilePath userdataDir : String) (P : Event → Prop)
    (hlook : ∀ file, P (Event.LookPath file)) :
    ∀ ev ∈
      (if w.lookPath "genisoimage" = true then
         (([Event.LookPath "genisoimage"],
          Except.ok ("genisoimage",
            ["-o", isoFilePath, "-volid", "cidata", "-joliet", "-rock", userdataDir])) :
          Run (String × List String))
       else if w.lookPath "mkisofs" = true then
         ([Event.LookPath "genisoimage", Event.LookPath "mkisofs"],
          Except.ok ("mkisofs", ["-o", isoFilePath, "-V", "cidata", "-J", "-R", userdataDir]))
       else
         ([Event.LookPath "genisoimage", Event.LookPath "mkisofs"],
          Except.error
            "system is missing genisoimage or mkisofs, can't generate userdata iso without it")).1,
      P ev := by
  intro ev hev
  split at hev
  · simp only [List.mem_singleton] at hev
    rw [hev]; exact hlook _
  · split at hev
    · simp only [List.mem_cons, List.mem_singleton, List.not_mem_nil, or_false] at hev
      rcases hev with h | h <;> (rw [h]; exact hlook _)
    · simp only [List.mem_cons, List.mem_singleton, List.not_mem_nil, or_false] at hev
      rcases hev with h | h <;> (rw [h]; exact hlook _)

/-- Every call made by `generateLocalUserdataISO` satisfies `P`, when `P` holds of the calls to
the file system and to commands; a write is either the userdata file or the meta-data file
with the rendered payload. -/
theorem generateLocalUserdataISO_events (w : World) (userdata name : String)
    (P : Event → Prop)
    (htemp : P (Event.TempDir localTempDir name))
    (hwrite : ∀ dir, w.tempDir localTempDir name = Except.ok dir →
      P (Event.WriteFile (dir ++ "/user-data") userdata)
      ∧ P (Event.WriteFile (dir ++ "/meta-data") (metadataOf name)))
    (hlook : ∀ file, P (Event.LookPath file))
    (hcmd : ∀ c args, P (Event.CombinedOutput c args))
    (hrm : ∀ path, P (Event.RemoveAll path))
    (herr : ∀ msg, P (Event.HandleError msg)) :
    ∀ ev ∈ (generateLocalUserdataISO w userdata name).1, P ev := by
  unfold generateLocalUserdataISO
  apply all_call
  · intro ev hev
    simp only [List.mem_singleton] at hev
    rw [hev]; exact htemp
  · intro dir hdir ev hev
    simp only [deferred, List.mem_append] at hev
    rcases hev with hev | hev
    · revert ev
      rw [templateParse_metaDataTemplate, call_ok, templateExecute_metaDataTemplate, call_ok]
      simp only [List.nil_append]
      apply all_call
      · intro ev hev
        simp only [List.mem_singleton] at hev
        rw [hev]; exact (hwrite dir hdir).1
      · intro _ _
        apply all_call
        · intro ev hev
          simp only [List.mem_singleton] at hev
          rw [hev]; exact (hwrite dir hdir).2
        · intro _ _
          apply all_call
          · exact lookup_events w _ _ P hlook
          · intro cmd _
            apply all_call
            · intro ev hev
              simp only [List.mem_singleton] at hev
              rw [hev]; exact hcmd _ _
            · intro _ _ ev hev
              simp at hev
    · split at hev
      · simp only [List.mem_singleton] at hev
        rw [hev]; exact hrm _
      · simp only [List.mem_cons, List.mem_singleton, List.not_mem_nil, or_false] at hev
        rcases hev with h | h
        · rw [h]; exact hrm _
        · rw [h]; exact herr _

theorem generateLocalUserdataISO_isISOEvent (w : World) (userdata name : String) :
    ∀ ev ∈ (generateLocalUserdataISO w userdata name).1, ev.isISOEvent = true :=
  generateLocalUserdataISO_events w userdata name (fun ev => ev.isISOEvent = true)
    rfl (fun _ _ => ⟨rfl, rfl⟩) (fun _ => rfl) (fun _ _ => rfl) (fun _ => rfl) (fun _ => rfl)

/-- C7: `metaDataTemplate` parses, and rendered with both fields set to the instance name
`n` it gives `instance-id: n`, a newline, a tab, `local-hostname: n`, without trailing
newline.  In a run of `generateLocalUserdataISO` in which the scratch directory `dir` is
created and the userdata file is written, the meta-data file `dir/meta-data` is written, and
whatever is written to it is exactly that payload. -/
theorem generateLocalUserdataISO_metadata_payload (w : World) (userdata n dir : String)
    (hdir : w.tempDir localTempDir n = Except.ok dir)
    (hud : w.writeFile (dir ++ "/user-data") userdata = Except.ok ()) :
    (∃ tmpl, templateParse metaDataTemplate = Except.ok tmpl
        ∧ templateExecute tmpl [("InstanceID", n), ("Hostname", n)]
            = Except.ok ("instance-id: " ++ n ++ "\n\tlocal-hostname: " ++ n))
    ∧ Event.WriteFile (dir ++ "/meta-data") ("instance-id: " ++ n ++ "\n\tlocal-hostname: " ++ n)
        ∈ (generateLocalUserdataISO w userdata n).1
    ∧ ∀ data, Event.WriteFile (dir ++ "/meta-data") data
        ∈ (generateLocalUserdataISO w userdata n).1 →
        data = "instance-id: " ++ n ++ "\n\tlocal-hostname: " ++ n := by
  refine ⟨⟨_, templateParse_metaDataTemplate, templateExecute_metaDataTemplate n⟩, ?_, ?_⟩
  · unfold generateLocalUserdataISO
    rw [hdir, call_ok]
    simp only [deferred]
    rw [templateParse_metaDataTemplate, call_ok, templateExecute_metaDataTemplate, call_ok, hud,
      call_ok]
    simp only [List.nil_append, List.mem_append, List.mem_singleton]
    right; left; right
    rw [mem_call]
    left
    simp [metadataOf]
  · intro data hmem
    have hne : dir ++ "/meta-data" ≠ dir ++ "/user-data" := by
      intro h
      have := append_left_cancel _ _ _ h
      revert this
      decide
    have key := generateLocalUserdataISO_events w userdata n
      (fun ev => ∀ d, ev = Event.WriteFile (dir ++ "/meta-data") d → d = metadataOf n)
      (by intro d h; cases h)
      (by
        intro dir2 hdir2
        rw [hdir] at hdir2
        cases hdir2
        constructor
        · intro d h
          injection h with h1 h2
          exact absurd h1.symm hne
        · intro d h
          injection h with h1 h2
          exact h2.symm)
      (by intro f d h; cases h) (by intro c a d h; cases h) (by intro f d h; cases h)
      (by intro f d h; cases h)
    exact key _ hmem data rfl

/-- C7 at the instance name `node-1`. -/
theorem generateLocalUserdataISO_metadata_payload_witness :
    Event.WriteFile "/tmp/node-1042/meta-data" "instance-id: node-1\n\tlocal-hostname: node-1"
      ∈ (generateLocalUserdataISO (sampleWorld [] none) "#cloud-config" "node-1").1 :=
  (generateLocalUserdataISO_metadata_payload (sampleWorld [] none) "#cloud-config" "node-1"
    "/tmp/node-1042" (by rfl) (by rfl)).2.1


/-! ## userdata.go: the remote path, upload and deletion -/

theorem datastoreISOFilename_eq_clean (n : String) (hne : n ≠ "") :
    datastoreISOFilename n = pathClean (n ++ "/cloud-init.iso") := by
  unfold datastoreISOFilename pathJoin
  rw [if_pos hne]
  simp only [stringsJoin]
  rw [String.append_assoc]
  rfl

theorem generateAndUploadUserDataISO_events (w : World) (userdata n : String)
    (P : Event → Prop)
    (hlocal : ∀ ev ∈ (generateLocalUserdataISO w userdata n).1, P ev)
    (hup : ∀ localPath, (generateLocalUserdataISO w userdata n).2 = Except.ok localPath →
      P (Event.UploadFile localPath (datastoreISOFilename n)) ∧ P (Event.Remove localPath)) :
    ∀ ev ∈ (generateAndUploadUserDataISO w userdata n).1, P ev := by
  unfold generateAndUploadUserDataISO
  apply all_call
  · exact hlocal
  · intro localPath hl ev hev
    simp only [deferred, List.mem_append, List.mem_singleton] at hev
    rcases hev with hev | hev
    · rcases (mem_call _ _ _ _ ev).1 hev with h | ⟨_, _, h⟩
      · simp only [List.mem_singleton] at h
        rw [h]; exact (hup localPath hl).1
      · simp at h
    · rw [hev]; exact (hup localPath hl).2

theorem generateAndUploadUserDataISO_isISOEvent (w : World) (userdata n : String) :
    ∀ ev ∈ (generateAndUploadUserDataISO w userdata n).1, ev.isISOEvent = true :=
  generateAndUploadUserDataISO_events w userdata n (fun ev => ev.isISOEvent = true)
    (generateLocalUserdataISO_isISOEvent w userdata n) (fun _ _ => ⟨rfl, rfl⟩)

theorem generateAndUploadUserDataISO_ok (w : World) (userdata n iso : String)
    (h : (generateAndUploadUserDataISO w userdata n).2 = Except.ok iso) :
    iso = datastorePath w.datastoreName (datastoreISOFilename n)
    ∧ ∃ localPath, (generateLocalUserdataISO w userdata n).2 = Except.ok localPath
      ∧ w.uploadFile localPath (datastoreISOFilename n) = Except.ok ()
      ∧ Event.UploadFile localPath (datastoreISOFilename n)
          ∈ (generateAndUploadUserDataISO w userdata n).1 := by
  unfold generateAndUploadUserDataISO at h ⊢
  obtain ⟨localPath, hl, h2⟩ := (call_result_ok _ _ _ _ _).1 h
  simp only [deferred] at h2
  obtain ⟨u, hu, h3⟩ := (call_result_ok _ _ _ _ _).1 h2
  simp only [Except.ok.injEq] at h3
  refine ⟨h3.symm, localPath, hl, hu, ?_⟩
  rw [hl, call_ok]
  simp only [deferred, List.mem_append]
  right; left
  rw [mem_call]
  left
  simp

/-- C8 as stated fails: for the empty instance name the remote path is `cloud-init.iso`,
without the leading slash of `n ++ "/cloud-init.iso"`; a trailing slash of the name is
dropped as well. -/
theorem datastoreISOFilename_empty_name :
    datastoreISOFilename "" = "cloud-init.iso"
    ∧ datastoreISOFilename "" ≠ "" ++ "/cloud-init.iso"
    ∧ datastoreISOFilename "web/" ≠ "web/" ++ "/cloud-init.iso" := by
  decide

/-- C8, amended: for an instance name `n` that is not empty, contains no slash and is not
`.`, `datastoreISOFilename n` is `n ++ "/cloud-init.iso"`.  The upload of
`generateAndUploadUserDataISO` goes to that path (every upload of the run has it as remote
path, and the upload is made once the local image exists), and `removeUserdataISO` makes
exactly one call, the deletion of that path. -/
theorem datastoreISOFilename_plain_name (w : World) (userdata n : String)
    (hne : n ≠ "") (hslash : ∀ x ∈ n.data, x ≠ '/') (hdot : n ≠ ".") :
    datastoreISOFilename n = n ++ "/cloud-init.iso"
    ∧ (∀ localPath remotePath, Event.UploadFile localPath remotePath
          ∈ (generateAndUploadUserDataISO w userdata n).1 →
        remotePath = n ++ "/cloud-init.iso")
    ∧ (∀ localPath, (generateLocalUserdataISO w userdata n).2 = Except.ok localPath →
        Event.UploadFile localPath (n ++ "/cloud-init.iso")
          ∈ (generateAndUploadUserDataISO w userdata n).1)
    ∧ (removeUserdataISO w n).1 = [Event.FileManagerDelete (n ++ "/cloud-init.iso")] := by
  have hname : datastoreISOFilename n = n ++ "/cloud-init.iso" := by
    rw [datastoreISOFilename_eq_clean n hne, pathClean_plain_name n hne hslash hdot]
  refine ⟨hname, ?_, ?_, ?_⟩
  · intro localPath remotePath hmem
    have key := generateAndUploadUserDataISO_events w userdata n
      (fun ev => ∀ l r, ev = Event.UploadFile l r → r = datastoreISOFilename n)
      (generateLocalUserdataISO_events w userdata n _
        (by intro l r h; cases h) (fun _ _ => ⟨(by intro l r h; cases h), (by intro l r h; cases h)⟩)
        (by intro f l r h; cases h) (by intro c a l r h; cases h) (by intro f l r h; cases h)
        (by intro f l r h; cases h))
      (fun _ _ => ⟨(by intro l r h; injection h with h1 h2; exact h2.symm),
        (by intro l r h; cases h)⟩)
    rw [← hname]
    exact key _ hmem localPath remotePath rfl
  · intro localPath hl
    rw [← hname]
    unfold generateAndUploadUserDataISO
    rw [hl, call_ok]
    simp only [deferred, List.mem_append]
    right; left
    rw [mem_call]
    left
    simp
  · rw [← hname]
    unfold removeUserdataISO
    split
    · split <;> rfl
    · rfl

/-- C8, amended, at the instance name `web-01`. -/
theorem datastoreISOFilename_plain_name_witness :
    datastoreISOFilename "web-01" = "web-01/cloud-init.iso" :=
  (datastoreISOFilename_plain_name (sampleWorld [] none) "#cloud-config" "web-01"
    (by decide) (by decide) (by decide)).1

theorem not_found_message_ne (d n : String) :
    "File [" ++ d ++ "] " ++ n ++ "/cloud-init.iso was not found"
      ≠ "File [" ++ d ++ "] " ++ n ++ " was not found" := by
  intro h
  have h2 := congrArg String.length h
  simp only [String.length_append] at h2
  have e1 : "/cloud-init.iso was not found".length = 29 := by decide
  have e2 : " was not found".length = 14 := by decide
  omega

/-- The tolerance of `removeUserdataISO` never applies to the not-found error of the image:
for every datastore name and instance name, when the deletion fails with
`File [d] n/cloud-init.iso was not found`, the function returns an error. -/
theorem removeUserdataISO_not_found (w : World) (n : String)
    (h : w.fileManagerDelete (datastoreISOFilename n) =
      Except.error ("File [" ++ w.datastoreName ++ "] " ++ n ++ "/cloud-init.iso was not found")) :
    (removeUserdataISO w n).2 = Except.error
      ("failed to delete userdate ISO of deleted machine " ++ n ++ ": "
        ++ ("File [" ++ w.datastoreName ++ "] " ++ n ++ "/cloud-init.iso was not found")) := by
  unfold removeUserdataISO
  rw [h]
  simp only [if_neg (not_found_message_ne w.datastoreName n)]

/-- C3 (the code at the failing input): on datastore `datastore1`, the deletion of the image
of `web-01` fails with the not-found error of the path `web-01/cloud-init.iso`, and
`removeUserdataISO` returns an error: it compares the message with
`File [datastore1] web-01 was not found`. -/
theorem removeUserdataISO_absent_image_is_error :
    (sampleWorld [] none).fileManagerDelete (datastoreISOFilename "web-01")
      = Except.error "File [datastore1] web-01/cloud-init.iso was not found"
    ∧ removeUserdataISO (sampleWorld [] none) "web-01" =
      ([Event.FileManagerDelete "web-01/cloud-init.iso"],
       Except.error ("failed to delete userdate ISO of deleted machine web-01: "
         ++ "File [datastore1] web-01/cloud-init.iso was not found")) :=
  ⟨by rfl, by rfl⟩


/-! ## vm.go: `createClonedVM` -/

theorem createClonedVM_eq (w : World) (vmName : String) (config : Config)
    (operatingSystem userdata : String) :
    createClonedVM w vmName config operatingSystem userdata =
      call [Event.FinderVirtualMachine config.TemplateVMName]
        (w.finderVirtualMachine config.TemplateVMName)
        (fun err => "failed to get template vm: " ++ err) fun templateVM =>
      call [Event.FinderFolder config.Folder] (w.finderFolder config.Folder)
        (fun err => "failed to get VM folder: " ++ err) fun targetVMFolder =>
      call [Event.Device templateVM] (w.vmDevice templateVM)
        (fun err => "failed to list devices of tempalte VM: " ++ err) fun vmDevices =>
      call (userdataHandling w vmName operatingSystem userdata templateVM vmDevices
              (removeFloppyDevices vmDevices)).1
        (userdataHandling w vmName operatingSystem userdata templateVM vmDevices
              (removeFloppyDevices vmDevices)).2 (fun err => err) fun injected =>
      call (diskSizeHandling w config vmDevices injected.1).1
        (diskSizeHandling w config vmDevices injected.1).2 (fun err => err) fun deviceSpecs1 =>
      call (networkHandling w config vmDevices deviceSpecs1).1
        (networkHandling w config vmDevices deviceSpecs1).2 (fun err => err) fun deviceSpecs2 =>
      call [Event.Clone targetVMFolder vmName
              (cloneSpecOf w config targetVMFolder deviceSpecs2 injected.2)]
        (w.clone templateVM targetVMFolder vmName
              (cloneSpecOf w config targetVMFolder deviceSpecs2 injected.2))
        (fun err => "failed to clone template vm: " ++ err) fun cloneTask =>
      call [Event.TaskWait cloneTask] (w.taskWait cloneTask)
        (fun err => "error when waiting for result of clone task: " ++ err) fun _ =>
      call [Event.FinderVirtualMachine vmName] (w.finderVirtualMachineAfterClone vmName)
        (fun err => "failed to get virtual machine object after cloning: " ++ err) fun vm =>
      ([], Except.ok vm) := rfl

theorem userdataHandling_coreos (w : World) (vmName userdata : String)
    (templateVM : VirtualMachine) (vmDevices : List BaseVirtualDevice)
    (deviceSpecs : List VirtualDeviceConfigSpec) :
    userdataHandling w vmName OperatingSystemCoreos userdata templateVM vmDevices deviceSpecs =
      match getCoreOSOptions (w.vmProperties templateVM) userdata with
      | Except.error err =>
        ([Event.Properties templateVM],
         Except.error ("failed to build vApp options for CoreOS. "
           ++ "Make sure you imported the correct OVA: " ++ err))
      | Except.ok coreOSVAppSpecs =>
        ([Event.Properties templateVM], Except.ok (deviceSpecs, coreOSVAppSpecs)) := by
  unfold userdataHandling
  rw [if_pos rfl]
  cases getCoreOSOptions (w.vmProperties templateVM) userdata with
  | error err => rfl
  | ok specs => rfl

theorem userdataHandling_other_ok (w : World) (vmName operatingSystem userdata : String)
    (templateVM : VirtualMachine) (vmDevices : List BaseVirtualDevice)
    (deviceSpecs : List VirtualDeviceConfigSpec)
    (injected : List VirtualDeviceConfigSpec × List VAppPropertySpec)
    (hos : operatingSystem ≠ OperatingSystemCoreos)
    (h : (userdataHandling w vmName operatingSystem userdata templateVM vmDevices
            deviceSpecs).2 = Except.ok injected) :
    (userdataHandling w vmName operatingSystem userdata templateVM vmDevices deviceSpecs).1
        = (generateAndUploadUserDataISO w userdata vmName).1
    ∧ injected.2 = []
    ∧ ∃ cdRomSpecs,
        (generateAndUploadUserDataISO w userdata vmName).2
          = Except.ok (datastorePath w.datastoreName (datastoreISOFilename vmName))
        ∧ getCDRomSpecs w.createCdrom vmDevices
            (datastorePath w.datastoreName (datastoreISOFilename vmName)) = Except.ok cdRomSpecs
        ∧ injected.1 = deviceSpecs ++ cdRomSpecs := by
  unfold userdataHandling at h ⊢
  rw [if_neg hos] at h ⊢
  obtain ⟨iso, hiso, h2⟩ := (call_result_ok _ _ _ _ _).1 h
  obtain ⟨cd, hcd, h3⟩ := (call_result_ok _ _ _ _ _).1 h2
  have hpath := (generateAndUploadUserDataISO_ok w userdata vmName iso hiso).1
  subst hpath
  simp only [Except.ok.injEq] at h3
  subst h3
  refine ⟨?_, rfl, cd, hiso, hcd, rfl⟩
  rw [hiso, call_ok, hcd, call_ok]
  simp

theorem diskSizeHandling_events (w : World) (config : Config)
    (vmDevices : List BaseVirtualDevice) (deviceSpecs : List VirtualDeviceConfigSpec) :
    ∀ ev ∈ (diskSizeHandling w config vmDevices deviceSpecs).1,
      ∃ size, ev = Event.GetDiskSpec size := by
  unfold diskSizeHandling
  cases config.DiskSizeGB with
  | none => simp
  | some size =>
    simp only []
    apply all_call
    · intro ev hev
      simp only [List.mem_singleton] at hev
      exact ⟨size, hev⟩
    · intro _ _ ev hev
      simp at hev

theorem networkHandling_events (w : World) (config : Config)
    (vmDevices : List BaseVirtualDevice) (deviceSpecs : List VirtualDeviceConfigSpec) :
    ∀ ev ∈ (networkHandling w config vmDevices deviceSpecs).1,
      ∃ names, ev = Event.GetNetworkSpecs names := by
  unfold networkHandling
  split
  · simp only []
    apply all_call
    · intro ev hev
      simp only [List.mem_singleton] at hev
      exact ⟨_, hev⟩
    · intro _ _ ev hev
      simp at hev
  · simp

theorem diskSizeHandling_ok (w : World) (config : Config)
    (vmDevices : List BaseVirtualDevice) (deviceSpecs specs : List VirtualDeviceConfigSpec)
    (h : (diskSizeHandling w config vmDevices deviceSpecs).2 = Except.ok specs) :
    (config.DiskSizeGB = none ∧ specs = deviceSpecs)
    ∨ ∃ size diskSpec, config.DiskSizeGB = some size
        ∧ w.getDiskSpec vmDevices size = Except.ok diskSpec
        ∧ specs = deviceSpecs ++ [diskSpec] := by
  unfold diskSizeHandling at h
  cases hd : config.DiskSizeGB with
  | none =>
    rw [hd] at h
    simp only [Except.ok.injEq] at h
    exact Or.inl ⟨rfl, h.symm⟩
  | some size =>
    rw [hd] at h
    simp only [] at h
    obtain ⟨d, hd2, h2⟩ := (call_result_ok _ _ _ _ _).1 h
    simp only [Except.ok.injEq] at h2
    exact Or.inr ⟨size, d, rfl, hd2, h2.symm⟩

theorem networkHandling_ok (w : World) (config : Config)
    (vmDevices : List BaseVirtualDevice) (deviceSpecs specs : List VirtualDeviceConfigSpec)
    (h : (networkHandling w config vmDevices deviceSpecs).2 = Except.ok specs) :
    (config.VMNetName = "" ∧ config.Networks = [] ∧ specs = deviceSpecs)
    ∨ ∃ networkSpecs, (config.VMNetName ≠ "" ∨ config.Networks ≠ [])
        ∧ w.GetNetworkSpecs vmDevices
            (setsList (setsInsert (setsNewString config.Networks) config.VMNetName))
            = Except.ok networkSpecs
        ∧ specs = deviceSpecs ++ networkSpecs := by
  unfold networkHandling at h
  by_cases hc : config.VMNetName ≠ "" ∨ config.Networks.length > 0
  · rw [if_pos hc] at h
    simp only [] at h
    obtain ⟨ns, hn, h2⟩ := (call_result_ok _ _ _ _ _).1 h
    simp only [Except.ok.injEq] at h2
    refine Or.inr ⟨ns, ?_, hn, h2.symm⟩
    rcases hc with hc | hc
    · exact Or.inl hc
    · exact Or.inr (List.length_pos.1 hc)
  · rw [if_neg hc] at h
    simp only [Except.ok.injEq] at h
    push_neg at hc
    refine Or.inl ⟨hc.1, ?_, h.symm⟩
    exact List.length_eq_zero.1 (Nat.le_zero.1 hc.2)


theorem userdataHandling_events (w : World) (vmName operatingSystem userdata : String)
    (templateVM : VirtualMachine) (vmDevices : List BaseVirtualDevice)
    (deviceSpecs : List VirtualDeviceConfigSpec) :
    ∀ ev ∈ (userdataHandling w vmName operatingSystem userdata templateVM vmDevices
              deviceSpecs).1,
      (operatingSystem = OperatingSystemCoreos ∧ ev = Event.Properties templateVM)
      ∨ (operatingSystem ≠ OperatingSystemCoreos ∧ ev.isISOEvent = true) := by
  unfold userdataHandling
  by_cases hos : operatingSystem = OperatingSystemCoreos
  · rw [if_pos hos]
    apply all_call
    · intro ev hev
      simp only [List.mem_singleton] at hev
      exact Or.inl ⟨hos, hev⟩
    · intro _ _ ev hev
      simp at hev
  · rw [if_neg hos]
    apply all_call
    · intro ev hev
      exact Or.inr ⟨hos, generateAndUploadUserDataISO_isISOEvent w userdata vmName ev hev⟩
    · intro _ _
      apply all_call
      · intro ev hev
        simp at hev
      · intro _ _ ev hev
        simp at hev

/-- The calls from the clone call on are not calls of the ISO generation or upload. -/
theorem clone_tail_events (w : World) (vmName : String) (templateVM : VirtualMachine)
    (folder : Folder) (spec : VirtualMachineCloneSpec) :
    ∀ ev ∈
      (call [Event.Clone folder vmName spec] (w.clone templateVM folder vmName spec)
        (fun err => "failed to clone template vm: " ++ err) fun cloneTask =>
       call [Event.TaskWait cloneTask] (w.taskWait cloneTask)
        (fun err => "error when waiting for result of clone task: " ++ err) fun _ =>
       call [Event.FinderVirtualMachine vmName] (w.finderVirtualMachineAfterClone vmName)
        (fun err => "failed to get virtual machine object after cloning: " ++ err) fun vm =>
       (([], Except.ok vm) : Run VirtualMachine)).1,
      ev.isISOEvent = false ∧ (ev.isClone = true → ev = Event.Clone folder vmName spec) := by
  apply all_call
  · intro ev hev
    simp only [List.mem_singleton] at hev
    rw [hev]
    exact ⟨rfl, fun _ => rfl⟩
  · intro task _
    apply all_call
    · intro ev hev
      simp only [List.mem_singleton] at hev
      rw [hev]
      exact ⟨rfl, fun h => by cases h⟩
    · intro _ _
      apply all_call
      · intro ev hev
        simp only [List.mem_singleton] at hev
        rw [hev]
        exact ⟨rfl, fun h => by cases h⟩
      · intro _ _ ev hev
        simp at hev

/-- A run of `createClonedVM` that makes the clone call: every step before the call has
succeeded, the call is made for the requested name with the assembled specification, and the
calls of the ISO generation and upload in the run are those of the userdata block. -/
theorem clone_reached (w : World) (vmName : String) (config : Config)
    (operatingSystem userdata : String) (folder : Folder) (name : String)
    (spec : VirtualMachineCloneSpec)
    (h : Event.Clone folder name spec
      ∈ (createClonedVM w vmName config operatingSystem userdata).1) :
    ∃ templateVM vmDevices injected specs1 specs2,
      w.finderVirtualMachine config.TemplateVMName = Except.ok templateVM
      ∧ w.finderFolder config.Folder = Except.ok folder
      ∧ w.vmDevice templateVM = Except.ok vmDevices
      ∧ (userdataHandling w vmName operatingSystem userdata templateVM vmDevices
          (removeFloppyDevices vmDevices)).2 = Except.ok injected
      ∧ (diskSizeHandling w config vmDevices injected.1).2 = Except.ok specs1
      ∧ (networkHandling w config vmDevices specs1).2 = Except.ok specs2
      ∧ name = vmName
      ∧ spec = cloneSpecOf w config folder specs2 injected.2
      ∧ (∀ ev, ev.isISOEvent = true →
          (ev ∈ (createClonedVM w vmName config operatingSystem userdata).1 ↔
            ev ∈ (userdataHandling w vmName operatingSystem userdata templateVM vmDevices
              (removeFloppyDevices vmDevices)).1)) := by
  have h0 := h
  rw [createClonedVM_eq] at h0
  rcases (mem_call _ _ _ _ _).1 h0 with h1 | ⟨tvm, h1, h0⟩
  · simp at h1
  rcases (mem_call _ _ _ _ _).1 h0 with h2 | ⟨fld, h2, h0⟩
  · simp at h2
  rcases (mem_call _ _ _ _ _).1 h0 with h3 | ⟨devs, h3, h0⟩
  · simp at h3
  rcases (mem_call _ _ _ _ _).1 h0 with h4 | ⟨inj, h4, h0⟩
  · rcases userdataHandling_events _ _ _ _ _ _ _ _ h4 with ⟨_, h5⟩ | ⟨_, h5⟩
    · cases h5
    · cases h5
  rcases (mem_call _ _ _ _ _).1 h0 with h5 | ⟨s1, h5, h0⟩
  · obtain ⟨_, h6⟩ := diskSizeHandling_events _ _ _ _ _ h5
    cases h6
  rcases (mem_call _ _ _ _ _).1 h0 with h6 | ⟨s2, h6, h0⟩
  · obtain ⟨_, h7⟩ := networkHandling_events _ _ _ _ _ h6
    cases h7
  have h7 := (clone_tail_events w vmName tvm fld _ _ h0).2 rfl
  injection h7 with hf hn hs
  subst hf hn hs
  refine ⟨tvm, devs, inj, s1, s2, h1, h2, h3, h4, h5, h6, rfl, rfl, ?_⟩
  intro ev hiso
  rw [createClonedVM_eq, h1, call_ok, h2, call_ok, h3, call_ok, h4, call_ok, h5, call_ok, h6,
    call_ok]
  simp only [List.mem_append, List.mem_singleton]
  constructor
  · rintro (hev | hev | hev | hev | hev | hev | hev)
    · rw [hev] at hiso; cases hiso
    · rw [hev] at hiso; cases hiso
    · rw [hev] at hiso; cases hiso
    · exact hev
    · obtain ⟨_, h8⟩ := diskSizeHandling_events _ _ _ _ _ hev
      rw [h8] at hiso; cases hiso
    · obtain ⟨_, h8⟩ := networkHandling_events _ _ _ _ _ hev
      rw [h8] at hiso; cases hiso
    · have := (clone_tail_events _ _ _ _ _ _ hev).1
      rw [this] at hiso; cases hiso
  · intro hev
    exact Or.inr (Or.inr (Or.inr (Or.inl hev)))


theorem builder_output (w : World) (config : Config) (vmDevices : List BaseVirtualDevice)
    (deviceSpecs specs1 specs2 : List VirtualDeviceConfigSpec)
    (h1 : (diskSizeHandling w config vmDevices deviceSpecs).2 = Except.ok specs1)
    (h2 : (networkHandling w config vmDevices specs1).2 = Except.ok specs2) :
    ∃ extra, specs2 = deviceSpecs ++ extra ∧ IsBuilderOutput w config vmDevices extra := by
  rcases diskSizeHandling_ok w config vmDevices deviceSpecs specs1 h1 with
    ⟨hd, rfl⟩ | ⟨size, d, hd, hd2, rfl⟩
  · rcases networkHandling_ok w config vmDevices _ specs2 h2 with
      ⟨hn1, hn2, rfl⟩ | ⟨ns, hn, hn2, rfl⟩
    · exact ⟨[], by simp, [], [], rfl, Or.inl ⟨hd, rfl⟩, Or.inl ⟨hn1, hn2, rfl⟩⟩
    · exact ⟨ns, rfl, [], ns, rfl, Or.inl ⟨hd, rfl⟩, Or.inr ⟨hn, hn2⟩⟩
  · rcases networkHandling_ok w config vmDevices _ specs2 h2 with
      ⟨hn1, hn2, rfl⟩ | ⟨ns, hn, hn2, rfl⟩
    · exact ⟨[d], rfl, [d], [], by simp, Or.inr ⟨size, d, hd, hd2, rfl⟩,
        Or.inl ⟨hn1, hn2, rfl⟩⟩
    · exact ⟨[d] ++ ns, by simp, [d], ns, rfl, Or.inr ⟨size, d, hd, hd2, rfl⟩,
        Or.inr ⟨hn, hn2⟩⟩

/-- In a run that makes the clone call, calls of the ISO generation and upload are made
exactly when the operating system is not CoreOS. -/
theorem clone_reached_iso_iff (w : World) (vmName : String) (config : Config)
    (operatingSystem userdata : String) (folder : Folder) (name : String)
    (spec : VirtualMachineCloneSpec)
    (h : Event.Clone folder name spec
      ∈ (createClonedVM w vmName config operatingSystem userdata).1) :
    (∃ ev ∈ (createClonedVM w vmName config operatingSystem userdata).1, ev.isISOEvent = true)
      ↔ operatingSystem ≠ OperatingSystemCoreos := by
  obtain ⟨tvm, devs, inj, s1, s2, _, _, _, h4, _, _, _, _, hiso⟩ :=
    clone_reached w vmName config operatingSystem userdata folder name spec h
  constructor
  · rintro ⟨ev, hev, hev2⟩
    rcases userdataHandling_events _ _ _ _ _ _ _ _ ((hiso ev hev2).1 hev) with
      ⟨_, h5⟩ | ⟨h5, _⟩
    · rw [h5] at hev2; cases hev2
    · exact h5
  · intro hos
    obtain ⟨hevs, _, cd, hgen, _, _⟩ :=
      userdataHandling_other_ok w vmName operatingSystem userdata tvm devs _ inj hos h4
    obtain ⟨_, localPath, _, _, hup⟩ := generateAndUploadUserDataISO_ok w userdata vmName _ hgen
    refine ⟨Event.UploadFile localPath (datastoreISOFilename vmName), ?_, rfl⟩
    rw [hiso (Event.UploadFile localPath (datastoreISOFilename vmName)) rfl, hevs]
    exact hup

/-- C4: in a run of `createClonedVM` that makes the clone call, the injection path is
fixed by the operating system.  For CoreOS the vApp property list of the clone
specification is the output of `getCoreOSOptions`, no call of the ISO generation or upload is
made, and the device changes are the floppy removals followed only by the outputs of the disk
and network builders.  For every other operating system the vApp property list is empty, all
calls of `generateAndUploadUserDataISO` are made (the local image is generated and uploaded
to the remote path), and the device changes are the floppy removals, then the output of
`getCDRomSpecs` for the uploaded image, then the builders' outputs.  ISO calls occur exactly
when the system is not CoreOS, so any other run with the same operating system that reaches
the clone call takes the same path. -/
theorem createClonedVM_one_injection_path (w : World) (vmName : String) (config : Config)
    (operatingSystem userdata : String) (folder : Folder) (name : String)
    (spec : VirtualMachineCloneSpec)
    (h : Event.Clone folder name spec
      ∈ (createClonedVM w vmName config operatingSystem userdata).1) :
    (∃ templateVM vmDevices extra,
      w.finderVirtualMachine config.TemplateVMName = Except.ok templateVM
      ∧ w.vmDevice templateVM = Except.ok vmDevices
      ∧ IsBuilderOutput w config vmDevices extra
      ∧ ((operatingSystem = OperatingSystemCoreos
            ∧ getCoreOSOptions (w.vmProperties templateVM) userdata
                = Except.ok spec.VAppConfigProperty
            ∧ (∀ ev ∈ (createClonedVM w vmName config operatingSystem userdata).1,
                ev.isISOEvent = false)
            ∧ spec.DeviceChange = removeFloppyDevices vmDevices ++ extra)
          ∨ (operatingSystem ≠ OperatingSystemCoreos
            ∧ spec.VAppConfigProperty = []
            ∧ (∀ ev ∈ (generateAndUploadUserDataISO w userdata vmName).1,
                ev ∈ (createClonedVM w vmName config operatingSystem userdata).1)
            ∧ ∃ localIso cdRomSpecs,
                (generateLocalUserdataISO w userdata vmName).2 = Except.ok localIso
                ∧ Event.UploadFile localIso (datastoreISOFilename vmName)
                    ∈ (createClonedVM w vmName config operatingSystem userdata).1
                ∧ getCDRomSpecs w.createCdrom vmDevices
                    (datastorePath w.datastoreName (datastoreISOFilename vmName))
                    = Except.ok cdRomSpecs
                ∧ spec.DeviceChange = removeFloppyDevices vmDevices ++ cdRomSpecs ++ extra)))
    ∧ ((∃ ev ∈ (createClonedVM w vmName config operatingSystem userdata).1,
          ev.isISOEvent = true) ↔ operatingSystem ≠ OperatingSystemCoreos)
    ∧ (∀ (w2 : World) (vmName2 : String) (config2 : Config) (userdata2 : String)
        (folder2 : Folder) (name2 : String) (spec2 : VirtualMachineCloneSpec),
        Event.Clone folder2 name2 spec2
          ∈ (createClonedVM w2 vmName2 config2 operatingSystem userdata2).1 →
        ((∃ ev ∈ (createClonedVM w2 vmName2 config2 operatingSystem userdata2).1,
            ev.isISOEvent = true)
          ↔ (∃ ev ∈ (createClonedVM w vmName config operatingSystem userdata).1,
            ev.isISOEvent = true))) := by
  have hiff := clone_reached_iso_iff w vmName config operatingSystem userdata folder name spec h
  refine ⟨?_, hiff, ?_⟩
  · obtain ⟨tvm, devs, inj, s1, s2, h1, _, h3, h4, h5, h6, _, hspec, hiso⟩ :=
      clone_reached w vmName config operatingSystem userdata folder name spec h
    obtain ⟨extra, hextra, hbuild⟩ := builder_output w config devs inj.1 s1 s2 h5 h6
    refine ⟨tvm, devs, extra, h1, h3, hbuild, ?_⟩
    by_cases hos : operatingSystem = OperatingSystemCoreos
    · left
      subst hos
      rw [userdataHandling_coreos] at h4
      cases hopt : getCoreOSOptions (w.vmProperties tvm) userdata with
      | error err => rw [hopt] at h4; cases h4
      | ok ops =>
        rw [hopt] at h4
        simp only [Except.ok.injEq] at h4
        subst h4
        refine ⟨rfl, ?_, ?_, ?_⟩
        · rw [hspec]; rfl
        · intro ev hev
          by_contra hne
          have ht : ev.isISOEvent = true := by
            cases hb : ev.isISOEvent with
            | true => rfl
            | false => exact absurd hb hne
          exact (hiff.1 ⟨ev, hev, ht⟩) rfl
        · rw [hspec, hextra]; rfl
    · right
      obtain ⟨hevs, hvapp, cd, hgen, hcd, hinj⟩ :=
        userdataHandling_other_ok w vmName operatingSystem userdata tvm devs _ inj hos h4
      obtain ⟨_, localPath, hlocal, _, hup⟩ :=
        generateAndUploadUserDataISO_ok w userdata vmName _ hgen
      refine ⟨hos, ?_, ?_, localPath, cd, hlocal, ?_, hcd, ?_⟩
      · rw [hspec]; exact hvapp
      · intro ev hev
        have hisoev := generateAndUploadUserDataISO_isISOEvent w userdata vmName ev hev
        rw [hiso ev hisoev, hevs]
        exact hev
      · rw [hiso (Event.UploadFile localPath (datastoreISOFilename vmName)) rfl, hevs]
        exact hup
      · rw [hspec, hextra]
        show inj.1 ++ extra = _
        rw [hinj]
  · intro w2 vmName2 config2 userdata2 folder2 name2 spec2 h2
    rw [clone_reached_iso_iff w2 vmName2 config2 operatingSystem userdata2 folder2 name2 spec2
      h2, hiff]

/-- C4 at an Ubuntu clone of `web-01` from a template with one floppy. -/
theorem createClonedVM_one_injection_path_witness :
    ∃ ev ∈ (createClonedVM (sampleWorld [sampleFloppy] none) "web-01" sampleConfig "ubuntu"
        "#cloud-config").1, ev.isISOEvent = true :=
  (createClonedVM_one_injection_path (sampleWorld [sampleFloppy] none) "web-01" sampleConfig
    "ubuntu" "#cloud-config"
    { InventoryPath := "/dc/vm/machines", Reference := "group-v3" } "web-01"
    (cloneSpecOf (sampleWorld [sampleFloppy] none) sampleConfig
      { InventoryPath := "/dc/vm/machines", Reference := "group-v3" }
      [removeOf sampleFloppy,
       { Device := { dtype := DeviceType.VirtualIDEController,
                     dev := { Key := -201, ControllerKey := 0, BackingFileName := none } },
         Operation := ConfigSpecOperation.Add },
       { Device := { dtype := DeviceType.VirtualCdrom,
                     dev := { Key := -1, ControllerKey := -201,
                              BackingFileName := some "[datastore1] web-01/cloud-init.iso" } },
         Operation := ConfigSpecOperation.Add }]
      [])
    (by decide)).2.1.2 (by decide)


theorem pathClean_ne_empty (path : String) : pathClean path ≠ "" := by
  have key : ∀ out : List Char, (if out.length = 0 then "." else String.mk out) ≠ "" := by
    intro out
    split
    · decide
    · rename_i hlen
      intro h
      apply hlen
      have := congrArg String.length h
      simpa using this
  unfold pathClean
  split
  · decide
  · exact key _

theorem datastoreISOFilename_ne_empty (n : String) : datastoreISOFilename n ≠ "" := by
  by_cases hn : n = ""
  · subst hn
    decide
  · rw [datastoreISOFilename_eq_clean n hn]
    exact pathClean_ne_empty _

theorem datastorePath_datastoreISOFilename (d n : String) :
    datastorePath d (datastoreISOFilename n) = "[" ++ d ++ "]" ++ " " ++ datastoreISOFilename n := by
  unfold datastorePath
  rw [if_neg (datastoreISOFilename_ne_empty n)]
  rfl

/-- A successful run of `createClonedVM` has made the clone call. -/
theorem success_reaches_clone (w : World) (vmName : String) (config : Config)
    (operatingSystem userdata : String) (vm : VirtualMachine)
    (h : (createClonedVM w vmName config operatingSystem userdata).2 = Except.ok vm) :
    ∃ folder spec, Event.Clone folder vmName spec
      ∈ (createClonedVM w vmName config operatingSystem userdata).1 := by
  rw [createClonedVM_eq] at h ⊢
  obtain ⟨tvm, h1, h⟩ := (call_result_ok _ _ _ _ _).1 h
  obtain ⟨fld, h2, h⟩ := (call_result_ok _ _ _ _ _).1 h
  obtain ⟨devs, h3, h⟩ := (call_result_ok _ _ _ _ _).1 h
  obtain ⟨inj, h4, h⟩ := (call_result_ok _ _ _ _ _).1 h
  obtain ⟨s1, h5, h⟩ := (call_result_ok _ _ _ _ _).1 h
  obtain ⟨s2, h6, h⟩ := (call_result_ok _ _ _ _ _).1 h
  refine ⟨fld, cloneSpecOf w config fld s2 inj.2, ?_⟩
  rw [h1, call_ok, h2, call_ok, h3, call_ok, h4, call_ok, h5, call_ok, h6, call_ok]
  simp only [List.mem_append, List.mem_singleton]
  right; right; right; right; right; right
  rw [mem_call]
  left
  simp

/-- C5 as stated fails: in the clone of `web-01` from a template with one floppy on
datastore `datastore1`, the only clone call carries the device changes floppy Remove,
controller Add, reader Add, and the reader is backed by `[datastore1] web-01/cloud-init.iso`;
no operation of the list is bound to the file name `web-01/cloud-init.iso`. -/
theorem createClonedVM_web01_backing_not_relative :
    (createClonedVM (sampleWorld [sampleFloppy] none) "web-01" sampleConfig "ubuntu"
        "#cloud-config").1.filter Event.isClone
      = [Event.Clone sampleFolder "web-01"
          (cloneSpecOf (sampleWorld [sampleFloppy] none) sampleConfig sampleFolder
            web01DeviceChange [])]
    ∧ web01DeviceChange.all
        (fun s => s.Device.dev.BackingFileName ≠ some "web-01/cloud-init.iso") = true
    ∧ (createClonedVM (sampleWorld [sampleFloppy] none) "web-01" sampleConfig "ubuntu"
        "#cloud-config").2 = Except.ok { InventoryPath := "/dc/vm/web-01", Reference := "vm-22" } := by
  refine ⟨?_, ?_, ?_⟩
  · decide
  · decide
  · rfl

/-- C5, amended: when the operating system is not CoreOS, no disk size and no network is
configured and `createClonedVM` succeeds, the clone call is made, and the device changes of
every clone call of the run are, in order, one Remove per floppy of the template, one Remove
per CD-ROM, one Remove per IDE controller, the Add of the new controller and last the Add of
the new CD-ROM, whose backing file name is the datastore path of the remote path,
`[d] ` followed by `datastoreISOFilename n`, for the datastore name `d`. -/
theorem createClonedVM_iso_device_changes (w : World) (n : String) (config : Config)
    (operatingSystem userdata : String) (vm : VirtualMachine)
    (hos : operatingSystem ≠ OperatingSystemCoreos)
    (hdisk : config.DiskSizeGB = none) (hnet : config.VMNetName = "")
    (hnets : config.Networks = [])
    (hok : (createClonedVM w n config operatingSystem userdata).2 = Except.ok vm) :
    (∃ folder spec, Event.Clone folder n spec
        ∈ (createClonedVM w n config operatingSystem userdata).1)
    ∧ ∃ templateVM vmDevices cdrom,
        w.finderVirtualMachine config.TemplateVMName = Except.ok templateVM
        ∧ w.vmDevice templateVM = Except.ok vmDevices
        ∧ w.createCdrom vmDevices (newIDEController vmDevices) = Except.ok cdrom
        ∧ ∀ folder name spec, Event.Clone folder name spec
            ∈ (createClonedVM w n config operatingSystem userdata).1 →
          spec.DeviceChange =
            (vmDevices.filter (fun d => d.dtype = DeviceType.VirtualFloppy)).map removeOf
            ++ ((vmDevices.filter (fun d => d.dtype = DeviceType.VirtualCdrom)).map removeOf
              ++ (vmDevices.filter
                    (fun d => d.dtype = DeviceType.VirtualIDEController)).map removeOf)
            ++ [{ Device := { dtype := DeviceType.VirtualIDEController,
                              dev := newIDEController vmDevices },
                  Operation := ConfigSpecOperation.Add },
                { Device := { dtype := DeviceType.VirtualCdrom,
                              dev :=
                                { cdrom with
                                  BackingFileName := some ("[" ++ w.datastoreName ++ "]"
                                    ++ " " ++ datastoreISOFilename n) } },
                  Operation := ConfigSpecOperation.Add }] := by
  obtain ⟨folder0, spec0, hclone⟩ :=
    success_reaches_clone w n config operatingSystem userdata vm hok
  refine ⟨⟨folder0, spec0, hclone⟩, ?_⟩
  obtain ⟨tvm, devs, inj, s1, s2, h1, _, h3, h4, h5, h6, _, _, _⟩ :=
    clone_reached w n config operatingSystem userdata folder0 n spec0 hclone
  obtain ⟨_, _, cd, _, hcd, hinj⟩ :=
    userdataHandling_other_ok w n operatingSystem userdata tvm devs _ inj hos h4
  obtain ⟨cdrom, hcdrom, hcdeq⟩ := (getCDRomSpecs_ok_iff _ _ _ _).1 hcd
  refine ⟨tvm, devs, cdrom, h1, h3, hcdrom, ?_⟩
  intro folder name spec hmem
  obtain ⟨tvm2, devs2, inj2, t1, t2, g1, _, g3, g4, g5, g6, _, gspec, _⟩ :=
    clone_reached w n config operatingSystem userdata folder name spec hmem
  rw [h1] at g1
  cases g1
  rw [h3] at g3
  cases g3
  rw [h4] at g4
  cases g4
  have e1 : t1 = inj.1 := by
    rcases diskSizeHandling_ok w config devs inj.1 t1 g5 with ⟨_, e⟩ | ⟨size, _, e, _, _⟩
    · exact e
    · rw [hdisk] at e; cases e
  have e2 : t2 = t1 := by
    rcases networkHandling_ok w config devs t1 t2 g6 with ⟨_, _, e⟩ | ⟨_, e, _, _⟩
    · exact e
    · rcases e with e | e
      · exact absurd hnet e
      · exact absurd hnets e
  rw [gspec, e2, e1]
  show inj.1 = _
  rw [hinj, hcdeq, removeFloppyDevices_eq_map, datastorePath_datastoreISOFilename]
  simp [cdromRemovals, cdromAdditions, removeOf]

/-- C5, amended, at the clone of `web-01` from a template with one floppy. -/
theorem createClonedVM_iso_device_changes_witness :
    ∃ folder spec, Event.Clone folder "web-01" spec
      ∈ (createClonedVM (sampleWorld [sampleFloppy] none) "web-01" sampleConfig "ubuntu"
          "#cloud-config").1 :=
  (createClonedVM_iso_device_changes (sampleWorld [sampleFloppy] none) "web-01" sampleConfig
    "ubuntu" "#cloud-config" { InventoryPath := "/dc/vm/web-01", Reference := "vm-22" }
    (by decide) (by rfl) (by rfl) (by rfl) (by rfl)).1

/-- C10 (the code at the failing input): with no named network (`VMNetName` empty) and the
single extra network `net-a`, `createClonedVM` calls `GetNetworkSpecs` with the two names
`""` and `net-a`: the empty name is inserted into the set although it is not a configured
network. -/
theorem createClonedVM_passes_empty_network_name :
    extraNetworkConfig.VMNetName = "" ∧ extraNetworkConfig.Networks = ["net-a"]
    ∧ (createClonedVM (sampleWorld [sampleFloppy] none) "web-01" extraNetworkConfig "ubuntu"
        "#cloud-config").1.filter
          (fun ev => match ev with
            | Event.GetNetworkSpecs _ => true
            | _ => false)
      = [Event.GetNetworkSpecs ["", "net-a"]] := by
  refine ⟨rfl, rfl, ?_⟩
  decide

end Vsphere
